import Mathlib

/-!
Verification of the prp signal-detection repository.

This file gives a shallow embedding, in Lean, of the parts of the source
tree that the stated properties talk about:

* `src/src/guidelines/EN/signals/FF/scanner.py` (FFScanner)
* `src/src/guidelines/EN/signals/HF/scanner.py` (HealthFeedbackScanner)
* `src/src/guidelines/EN/signals/FF/inspector.py` (FFInspector severity)
* `src/src/guidelines/EN/signals/JC/inspector.py` (victory score, status)
* `src/src/guidelines/EN/signals/ap/inspector.py` (package scores)
* `src/src/guidelines/EN/signals/generate_signals.py` (registry, batch)
* `src/src/guidelines/DE/pull-request-analysis/inspector.py` (validator)
* `src/templates/fastapi/app/main.py` and `routers/users.py` (scaffold)

Python strings are modelled as Lean `String`, Python ints as `Int`/`Nat`,
Python floats as `Rat` (every arithmetic value reached by the proofs below
is exactly representable, so no rounding gap arises), Python dicts as
association lists in insertion order, and raised exceptions as `Except`.
-/

/-- Does the needle occur at the very start of the haystack? -/
def headMatches {α : Type} [DecidableEq α] : List α → List α → Bool
  | [], _ => true
  | _ :: _, [] => false
  | a :: as, b :: bs => a = b && headMatches as bs

/-- Does the needle occur anywhere inside the haystack? -/
def containsSub {α : Type} [DecidableEq α] : List α → List α → Bool
  | needle, [] => needle.isEmpty
  | needle, b :: bs => headMatches needle (b :: bs) || containsSub needle bs

/-- Python `needle in haystack` on strings: substring containment. -/
def strContains (haystack needle : String) : Bool :=
  containsSub needle.toList haystack.toList

/-- Python `s.lower()` (character-wise, as on the ASCII texts involved). -/
def strLower (s : String) : String :=
  String.mk (s.toList.map Char.toLower)

/-- Python `min(a, b)` on ints. -/
def pyMinNat (a b : Nat) : Nat :=
  if a ≤ b then a else b

/-- Python `int(x)` on a nonnegative float/exact value: truncation toward
zero; all call sites modelled here only reach nonnegative values, where
truncation agrees with the floor. -/
def pyInt (q : ℚ) : ℤ :=
  if 0 ≤ q then ⌊q⌋ else ⌈q⌉

/-!
## Regex model for the scanner patterns

Every pattern appearing in `FFScanner.patterns` and
`HealthFeedbackScanner.patterns` is a sequence of literal characters
(`\[` and `\]` are escaped literals) and of the two-character unit `.?`
(any single non-newline character, optional, greedy).  We model such a
pattern as a list of atoms and give it Python `re` semantics with
`re.IGNORECASE`: literals compare case-insensitively, `.?` first tries to
consume one non-newline character and backtracks to consuming none.
-/

inductive RAtom where
  | lit (c : Char)
  | anyOpt
deriving DecidableEq

/-- The compiled form of a pattern that is a plain (escaped) literal. -/
def litPat (s : String) : List RAtom :=
  s.toList.map RAtom.lit

/-- Match a pattern at the start of `cs`; on success return the matched
characters verbatim (`match.group()`), greedy with backtracking as in
Python `re`, case-insensitive as under `re.IGNORECASE`. -/
def matchHere : List RAtom → List Char → Option (List Char)
  | [], _ => some []
  | RAtom.lit _ :: _, [] => none
  | RAtom.lit c :: ps, d :: ds =>
      if c.toLower = d.toLower then (matchHere ps ds).map (fun m => d :: m) else none
  | RAtom.anyOpt :: ps, [] => matchHere ps []
  | RAtom.anyOpt :: ps, d :: ds =>
      if d = '\n' then matchHere ps (d :: ds)
      else
        match matchHere ps ds with
        | some m => some (d :: m)
        | none => matchHere ps (d :: ds)

/-- Python `re.search(pattern, content)` viewed as a Boolean: does the
pattern match at some position? -/
def reSearch (p : List RAtom) : List Char → Bool
  | [] => (matchHere p []).isSome
  | d :: ds => (matchHere p (d :: ds)).isSome || reSearch p ds

/-- Python `re.finditer(pattern, content)`: non-overlapping matches,
scanning left to right, resuming after the end of each nonempty match
(and one past each empty match).  Each element records the match start
position and the matched characters.  The structural `fuel` argument
only bounds the number of scan steps; every step consumes at least one
character, so any fuel above the text length gives the same result
(`findIterFuel_congr`). -/
def findIterFuel (p : List RAtom) : Nat → List Char → Nat → List (Nat × List Char)
  | 0, _, _ => []
  | _ + 1, [], i =>
      match matchHere p [] with
      | some m => [(i, m)]
      | none => []
  | fuel + 1, d :: ds, i =>
      match matchHere p (d :: ds) with
      | none => findIterFuel p fuel ds (i + 1)
      | some [] => (i, ([] : List Char)) :: findIterFuel p fuel ds (i + 1)
      | some (m :: ms) => (i, m :: ms) :: findIterFuel p fuel (ds.drop ms.length) (i + 1 + ms.length)

/-- `re.finditer` over the whole character list. -/
def findIter (p : List RAtom) (cs : List Char) (i : Nat) : List (Nat × List Char) :=
  findIterFuel p (cs.length + 1) cs i

/-!
## FFScanner (src/src/guidelines/EN/signals/FF/scanner.py)
-/

/-- `FFScanner.patterns`, each with its regex source text. -/
def ffPatterns : List (String × List RAtom) :=
  [("\\[FF\\]", litPat "[FF]"),
   ("fatal.?error", litPat "fatal" ++ [RAtom.anyOpt] ++ litPat "error"),
   ("system.?corruption", litPat "system" ++ [RAtom.anyOpt] ++ litPat "corruption"),
   ("unrecoverable.?error", litPat "unrecoverable" ++ [RAtom.anyOpt] ++ litPat "error"),
   ("critical.?failure", litPat "critical" ++ [RAtom.anyOpt] ++ litPat "failure"),
   ("system.?crash", litPat "system" ++ [RAtom.anyOpt] ++ litPat "crash"),
   ("database.?corruption", litPat "database" ++ [RAtom.anyOpt] ++ litPat "corruption"),
   ("memory.?exhausted", litPat "memory" ++ [RAtom.anyOpt] ++ litPat "exhausted"),
   ("stack.?overflow", litPat "stack" ++ [RAtom.anyOpt] ++ litPat "overflow")]

/-- `FFScanner._classify_error_type`. -/
def classifyErrorType (errorMatch content : String) : String :=
  let contextLower := strLower content
  let errorLower := strLower errorMatch
  if strContains errorLower "memory" || strContains contextLower "out of memory" then
    "memory_exhaustion"
  else if strContains errorLower "database" || strContains errorLower "corruption" then
    "database_corruption"
  else if strContains errorLower "stack" || strContains errorLower "overflow" then
    "stack_overflow"
  else if strContains errorLower "crash" then
    "system_crash"
  else if strContains errorLower "corruption" then
    "data_corruption"
  else
    "unknown_fatal_error"

/-- `FFScanner._extract_context` (context window 200, anchor length 4). -/
def extractContext (content : String) (position size anchorLen : Nat) : String :=
  let cs := content.toList
  let start := position - size
  let stop := min cs.length (position + anchorLen + size)
  (String.mk ((cs.drop start).take (stop - start))).trim

/-- One Signal record as produced by a scanner.  The `id` and `timestamp`
fields are clock-derived in the source and carry no claim content; the
remaining fields are modelled verbatim. -/
structure Signal where
  type : String
  priority : Nat
  source : String
  rawSignal : String
  pattern : String
  context : String
  errorType : Option String
  guideline : String
  agent : String
  critical : Bool
deriving DecidableEq

/-- `FFScanner.scan_content`. -/
def scanContentFF (content : String) (source : String) : List Signal :=
  (ffPatterns.map (fun p =>
    (findIter p.2 content.toList 0).map (fun pm =>
      { type := "[FF]"
        priority := 10
        source := source
        rawSignal := String.mk pm.2
        pattern := p.1
        context := extractContext content pm.1 200 4
        errorType := some (classifyErrorType (String.mk pm.2) content)
        guideline := "FF"
        agent := "fatal-error-scanner"
        critical := true }))).flatten

/-- `FFScanner.should_emit_signal`. -/
def shouldEmitSignalFF (content : String) : Bool :=
  ffPatterns.any (fun p => reSearch p.2 content.toList)

/-!
## HealthFeedbackScanner (src/src/guidelines/EN/signals/HF/scanner.py)
-/

/-- `HealthFeedbackScanner.patterns`. -/
def hfPatterns : List (String × List RAtom) :=
  [("\\[HF\\]", litPat "[HF]"),
   ("health.?feedback", litPat "health" ++ [RAtom.anyOpt] ++ litPat "feedback"),
   ("system.?health", litPat "system" ++ [RAtom.anyOpt] ++ litPat "health"),
   ("orchestration.?cycle.?start",
     litPat "orchestration" ++ [RAtom.anyOpt] ++ litPat "cycle" ++ [RAtom.anyOpt] ++ litPat "start")]

/-- `HealthFeedbackScanner.scan_content` (context window 100, no
error-type classification, no `critical` flag). -/
def scanContentHF (content : String) (source : String) : List Signal :=
  (hfPatterns.map (fun p =>
    (findIter p.2 content.toList 0).map (fun pm =>
      { type := "[HF]"
        priority := 3
        source := source
        rawSignal := String.mk pm.2
        pattern := p.1
        context := extractContext content pm.1 100 4
        errorType := none
        guideline := "HF"
        agent := "health-feedback-scanner"
        critical := false }))).flatten

/-- `HealthFeedbackScanner.should_emit_signal`. -/
def shouldEmitSignalHF (content : String) : Bool :=
  hfPatterns.any (fun p => reSearch p.2 content.toList)

/-!
## FFInspector severity (src/src/guidelines/EN/signals/FF/inspector.py)
-/

/-- `severity_adjustments.get(error_type, 10)`: the literal table of
`FFInspector._classify_severity`, with default 10 (all keys distinct). -/
def severityAdjustment (errorType : String) : Nat :=
  if errorType = "memory_exhaustion" then 15
  else if errorType = "database_corruption" then 25
  else if errorType = "system_crash" then 20
  else if errorType = "security_breach" then 30
  else if errorType = "network_failure" then 10
  else if errorType = "disk_failure" then 20
  else if errorType = "service_crash" then 15
  else if errorType = "infrastructure_failure" then 25
  else 10

/-- The system-impact additions of `FFInspector._classify_severity`. -/
def impactAdjustment (systemImpact : String) : Nat :=
  if systemImpact = "system-wide" then 25
  else if systemImpact = "major-impact" then 15
  else if systemImpact = "partial-impact" then 5
  else 0

/-- The critical-indicator bonus of `FFInspector._classify_severity`. -/
def criticalIndicatorBonus (errorLogs : String) : Nat :=
  if ["critical", "fatal", "emergency", "catastrophic"].any
      (fun ind => strContains (strLower errorLogs) ind) then 15 else 0

/-- The raw (unclamped) severity score of `FFInspector._classify_severity`:
base 50 plus the three additions. -/
def severityScoreRaw (errorType systemImpact errorLogs : String) : Nat :=
  50 + severityAdjustment errorType + impactAdjustment systemImpact +
    criticalIndicatorBonus errorLogs

/-- `FFInspector._classify_severity`: tier name and returned score
(clamped with `min(100, _)` on the catastrophic branch only). -/
def classifySeverity (errorType systemImpact errorLogs : String) : String × Nat :=
  let s := severityScoreRaw errorType systemImpact errorLogs
  if 90 ≤ s then ("catastrophic", pyMinNat 100 s)
  else if 75 ≤ s then ("critical", s)
  else if 60 ≤ s then ("severe", s)
  else if 45 ≤ s then ("high", s)
  else ("elevated", s)

/-- Spec-side restatement of the five-tier classification at thresholds
90/75/60/45, used to compare `classifySeverity` against the spec text. -/
def specSeverityTier (s : Nat) : String :=
  if 90 ≤ s then "catastrophic"
  else if 75 ≤ s then "critical"
  else if 60 ≤ s then "severe"
  else if 45 ≤ s then "high"
  else "elevated"

/-!
## JC VictoryAnalyzer (src/src/guidelines/EN/signals/JC/inspector.py)
-/

/-- Python `round(x)` to an integer: round half to even, as on exact
values (every value reached below is exactly representable). -/
def pyRoundInt (q : ℚ) : ℤ :=
  let f := ⌊q⌋
  let r := q - f
  if r < 1 / 2 then f
  else if 1 / 2 < r then f + 1
  else if Even f then f else f + 1

/-- Python `round(x, 1)`: one decimal digit, half to even. -/
def pyRound1 (q : ℚ) : ℚ :=
  (pyRoundInt (10 * q) : ℚ) / 10

/-- The weight table of `VictoryAnalyzer._calculate_victory_score`. -/
def victoryWeights : List (String × ℚ) :=
  [("resolution_completeness", 30 / 100), ("system_recovery", 25 / 100),
   ("team_performance", 20 / 100), ("lessons_learned", 15 / 100),
   ("resolution_effectiveness", 10 / 100)]

/-- `VictoryAnalyzer._calculate_victory_score` as a function of its five
component scores: the weighted sum, rounded to one decimal. -/
def calculateVictoryScore (rc sr tp ll re : ℚ) : ℚ :=
  pyRound1 (rc * (30 / 100) + sr * (25 / 100) + tp * (20 / 100) +
    ll * (15 / 100) + re * (10 / 100))

/-- `VictoryAnalyzer._score_resolution_completeness`. -/
def scoreResolutionCompleteness (healthPercentage : ℚ)
    (dataLossDetected corruptionDetected backupRecoveryRequired : Bool) : ℚ :=
  let dataScore : ℚ := 100 - (if dataLossDetected then 30 else 0) -
    (if corruptionDetected then 20 else 0) -
    (if backupRecoveryRequired then 10 else 0)
  healthPercentage * (6 / 10) + dataScore * (4 / 10)

/-- `VictoryAnalyzer._determine_resolution_status`: forced to
ongoing-recovery on any remaining issue or health below 90, otherwise
tiers at 90/75/60/45.  (`if systems_healthy['remaining_issues'] or ...`:
Python truthiness of the list is nonemptiness.) -/
def determineResolutionStatus (remainingIssues : List String)
    (healthPercentage : ℚ) (victoryScore : ℚ) : String :=
  if remainingIssues ≠ [] ∨ healthPercentage < 90 then "ongoing_recovery"
  else if 90 ≤ victoryScore then "complete_victory"
  else if 75 ≤ victoryScore then "major_victory"
  else if 60 ≤ victoryScore then "partial_victory"
  else if 45 ≤ victoryScore then "limited_victory"
  else "ongoing_recovery"

/-!
## APInspector (src/src/guidelines/EN/signals/ap/inspector.py)

`preview_data` is a dict inspected only through the truthiness of
`preview_data.get(key)` and through `len(preview_data.get('impact_metrics', []))`;
we model it accordingly.
-/

structure PreviewData where
  get : String → Bool
  impactMetricsLen : Nat

/-- `APInspector._extract_preview_type` (first matching bucket in
insertion order, else "general"). -/
def extractPreviewType (rawSignal context : String) : String :=
  let combined := strLower (rawSignal ++ " " ++ context)
  let buckets : List (String × List String) :=
    [("implementation", ["implementation", "feature", "development", "code"]),
     ("analysis", ["analysis", "report", "research", "study"]),
     ("design", ["design", "mockup", "prototype", "ui", "ux"]),
     ("quality", ["quality", "testing", "qa", "validation"]),
     ("deployment", ["deployment", "release", "production", "launch"]),
     ("security", ["security", "audit", "vulnerability", "compliance"])]
  match buckets.find? (fun b => b.2.any (fun k => strContains combined k)) with
  | some b => b.1
  | none => "general"

/-- `APInspector._get_required_components`: three common components plus
the type-specific list (empty for types outside the five-entry table). -/
def getRequiredComponents (previewType : String) : List String :=
  let common := ["executive_summary", "detailed_content", "success_metrics"]
  let typeSpecific : List (String × List String) :=
    [("implementation",
      ["feature_demonstration", "performance_metrics", "quality_assurance",
       "deployment_procedures", "rollback_procedures"]),
     ("analysis",
      ["methodology", "data_sources", "findings", "visualizations",
       "recommendations"]),
     ("design",
      ["design_mockups", "user_experience_flows", "design_system",
       "accessibility_compliance", "technical_specifications"]),
     ("quality",
      ["test_coverage", "quality_metrics", "defect_analysis",
       "performance_results", "security_assessment"]),
     ("deployment",
      ["deployment_plan", "infrastructure_requirements", "rollback_strategy",
       "monitoring_setup", "success_criteria"])]
  common ++ (match typeSpecific.lookup previewType with
             | some l => l
             | none => [])

/-- The five generic component checks at the top of
`APInspector._analyze_package_completeness`, in source order. -/
def genericComponents : List String :=
  ["executive_summary", "detailed_content", "visual_elements",
   "success_metrics", "recommendations"]

/-- `components_present` after the generic checks and the
required-component loop (appending while avoiding duplicates). -/
def componentsPresent (pd : PreviewData) (previewType : String) : List String :=
  let base := genericComponents.filter pd.get
  (getRequiredComponents previewType).foldl
    (fun acc c => if pd.get c then (if c ∈ acc then acc else acc ++ [c]) else acc) base

/-- `components_missing` built the same way. -/
def componentsMissing (pd : PreviewData) (previewType : String) : List String :=
  let base := genericComponents.filter (fun c => ¬ pd.get c)
  (getRequiredComponents previewType).foldl
    (fun acc c => if pd.get c then acc else (if c ∈ acc then acc else acc ++ [c])) base

/-- `completion_percentage` in `_analyze_package_completeness`:
`(len(components_present) / len(required_components)) * 100`, guarded
against an empty required list.  Note that `components_present` may hold
components outside `required_components`. -/
def completionPercentage (pd : PreviewData) (previewType : String) : ℚ :=
  let required := getRequiredComponents previewType
  if required ≠ [] then
    ((componentsPresent pd previewType).length : ℚ) / (required.length : ℚ) * 100
  else 0

/-- `APInspector._calculate_completeness_score`: returns
`package_analysis['completion_percentage']` unchanged. -/
def calculateCompletenessScore (pd : PreviewData) (previewType : String) : ℚ :=
  completionPercentage pd previewType

/-- `APInspector._assess_content_accuracy`. -/
def assessContentAccuracy (pd : PreviewData) : ℚ :=
  min 100 (70 + (if pd.get "data_sources" then 15 else 0) +
    (if pd.get "data_validation" then 10 else 0) +
    (if pd.get "cross_validation" then 5 else 0))

/-- `APInspector._get_type_specific_content`. -/
def getTypeSpecificContent (previewType : String) : List String :=
  let typeContent : List (String × List String) :=
    [("implementation", ["features", "technical_details", "integration_points"]),
     ("analysis", ["hypothesis", "data_analysis", "insights"]),
     ("design", ["user_research", "design_rationale", "accessibility"]),
     ("quality", ["test_results", "defect_analysis", "coverage"]),
     ("deployment", ["infrastructure", "monitoring", "rollback"])]
  match typeContent.lookup previewType with
  | some l => l
  | none => []

/-- The seven generic content sections checked by
`_assess_content_completeness`. -/
def contentSections : List String :=
  ["background", "methodology", "findings", "analysis",
   "recommendations", "impact_assessment", "next_steps"]

/-- `APInspector._assess_content_completeness`.  For a preview type
outside the five-entry table the Python divides by
`len([]) = 0` and raises `ZeroDivisionError`; that is `none` here. -/
def assessContentCompleteness (pd : PreviewData) (previewType : String) : Option ℚ :=
  let tsc := getTypeSpecificContent previewType
  if tsc.length = 0 then none
  else
    let present := (contentSections.filter pd.get).length
    let presentTs := (tsc.filter pd.get).length
    let score : ℚ := 60 + (present : ℚ) / (contentSections.length : ℚ) * 30 +
      (presentTs : ℚ) / (tsc.length : ℚ) * 10
    some (min 100 (pyInt score : ℚ))

/-- `APInspector._assess_content_clarity`. -/
def assessContentClarity (pd : PreviewData) : ℚ :=
  min 100 (65 + (if pd.get "clear_objectives" then 10 else 0) +
    (if pd.get "simple_language" then 10 else 0) +
    (if pd.get "logical_structure" then 10 else 0) +
    (if pd.get "examples" then 5 else 0))

/-- `APInspector._assess_content_relevance`. -/
def assessContentRelevance (pd : PreviewData) : ℚ :=
  min 100 (70 + (if pd.get "stakeholder_needs" then 10 else 0) +
    (if pd.get "business_impact" then 10 else 0) +
    (if pd.get "decision_support" then 10 else 0))

/-- `APInspector._assess_content_consistency`. -/
def assessContentConsistency (pd : PreviewData) : ℚ :=
  min 100 (75 + (if pd.get "consistent_messaging" then 10 else 0) +
    (if pd.get "data_consistency" then 10 else 0) +
    (if pd.get "format_consistency" then 5 else 0))

/-- `overall_quality_score` from `_validate_content_quality`: the mean of
the five content scores (propagating the division fault of the
completeness sub-score). -/
def overallQualityScore (pd : PreviewData) (previewType : String) : Option ℚ :=
  (assessContentCompleteness pd previewType).map (fun cc =>
    (assessContentAccuracy pd + cc + assessContentClarity pd +
     assessContentRelevance pd + assessContentConsistency pd) / 5)

/-- `APInspector._calculate_quality_score`:
`int(content_quality['overall_quality_score'])`. -/
def calculateQualityScore (pd : PreviewData) (previewType : String) : Option ℤ :=
  (overallQualityScore pd previewType).map pyInt

/-- Count, as in the Python generator expressions, how many keywords of
the list occur in the text. -/
def keywordCount (text : String) (words : List String) : Nat :=
  (words.filter (fun w => strContains text w)).length

/-- `APInspector._assess_actionability_score` (documentation side). -/
def assessActionabilityScore (howToGuide adminInstructions : String) : ℚ :=
  let combined := strLower (howToGuide ++ " " ++ adminInstructions)
  let actionableWords :=
    ["click", "select", "choose", "decide", "approve", "reject",
     "review", "provide", "send", "complete", "submit"]
  let base : ℚ := 65 + min 25 ((keywordCount combined actionableWords : ℚ) * 5)
  let withNext : ℚ := base +
    (if strContains combined "next step" || strContains combined "following" then 10 else 0)
  min 100 withNext

/-- `APInspector._calculate_actionability_score`: the mean of the
documentation actionability score and a preview actionability score. -/
def calculateActionabilityScore (howToGuide adminInstructions : String)
    (pd : PreviewData) : ℤ :=
  let docScore := assessActionabilityScore howToGuide adminInstructions
  let previewActionability : ℚ := 50 + (if pd.get "clear_next_steps" then 25 else 0) +
    (if pd.get "decision_points" then 25 else 0)
  pyInt ((docScore + previewActionability) / 2)

/-- `APInspector._assess_impact_demonstration`. -/
def assessImpactDemonstration (pd : PreviewData) : ℚ :=
  min 100 (65 + (if pd.get "quantified_impact" then 15 else 0) +
    (if pd.get "before_after" then 10 else 0) +
    (if 3 ≤ pd.impactMetricsLen then 10 else 0))

/-- `APInspector._assess_benefit_communication`. -/
def assessBenefitCommunication (pd : PreviewData) : ℚ :=
  min 100 (70 + (if pd.get "clear_benefits" then 15 else 0) +
    (if pd.get "stakeholder_value" then 10 else 0) +
    (if pd.get "business_case" then 5 else 0))

/-- `APInspector._assess_risk_presentation`. -/
def assessRiskPresentation (pd : PreviewData) : ℚ :=
  min 100 (75 + (if pd.get "risk_assessment" then 10 else 0) +
    (if pd.get "mitigation_strategies" then 10 else 0) +
    (if pd.get "probability_impact" then 5 else 0))

/-- `APInspector._assess_resource_clarity`. -/
def assessResourceClarity (pd : PreviewData) : ℚ :=
  min 100 (70 + (if pd.get "resource_requirements" then 15 else 0) +
    (if pd.get "budget_impact" then 10 else 0) +
    (if pd.get "timeline_impact" then 5 else 0))

/-- `APInspector._assess_strategic_alignment`. -/
def assessStrategicAlignment (pd : PreviewData) : ℚ :=
  min 100 (75 + (if pd.get "strategic_goals" then 15 else 0) +
    (if pd.get "organizational_benefits" then 10 else 0))

/-- `APInspector._calculate_stakeholder_relevance_score`: the truncated
mean of the five stakeholder-impact scores. -/
def calculateStakeholderRelevanceScore (pd : PreviewData) : ℤ :=
  pyInt ((assessImpactDemonstration pd + assessBenefitCommunication pd +
    assessRiskPresentation pd + assessResourceClarity pd +
    assessStrategicAlignment pd) / 5)

/-- `APInspector._determine_overall_readiness` on the four aggregate
scores: average with tiers at 85 and 70. -/
def determineOverallReadiness (completeness quality actionability stakeholder : ℚ) :
    String :=
  let avg := (completeness + quality + actionability + stakeholder) / 4
  if 85 ≤ avg then "ready"
  else if 70 ≤ avg then "needs_improvement"
  else "not_ready"

/-!
## Signal registry and batch generator
(src/src/guidelines/EN/signals/generate_signals.py)
-/

structure SignalInfo where
  name : String
  priority : Nat
  category : String
deriving DecidableEq

/-- The `SIGNALS` table, verbatim and in source order.  Python dict keys
are case-sensitive, so `pr`/`PR` and `ff`/`FF` are distinct entries. -/
def SIGNALS : List (String × SignalInfo) :=
  [("HF", ⟨"Health Feedback", 3, "system"⟩),
   ("pr", ⟨"Pull Request Preparation", 4, "development"⟩),
   ("PR", ⟨"Pull Request Created", 5, "development"⟩),
   ("FF", ⟨"System Fatal Error", 10, "system"⟩),
   ("TF", ⟨"Terminal Closed", 1, "system"⟩),
   ("bb", ⟨"Blocker", 8, "coordination"⟩),
   ("af", ⟨"Feedback Request", 4, "communication"⟩),
   ("gg", ⟨"Goal Clarification", 6, "analysis"⟩),
   ("ff", ⟨"Goal Not Achievable", 7, "analysis"⟩),
   ("da", ⟨"Done Assessment", 5, "coordination"⟩),
   ("no", ⟨"Not Obvious", 6, "analysis"⟩),
   ("rp", ⟨"Ready for Preparation", 4, "development"⟩),
   ("vr", ⟨"Validation Required", 7, "testing"⟩),
   ("rr", ⟨"Research Request", 6, "analysis"⟩),
   ("vp", ⟨"Verification Plan", 5, "testing"⟩),
   ("ip", ⟨"Implementation Plan", 5, "development"⟩),
   ("er", ⟨"Experiment Required", 6, "development"⟩),
   ("tp", ⟨"Tests Prepared", 4, "testing"⟩),
   ("dp", ⟨"Development Progress", 4, "development"⟩),
   ("br", ⟨"Blocker Resolved", 3, "coordination"⟩),
   ("rc", ⟨"Research Complete", 3, "analysis"⟩),
   ("tw", ⟨"Tests Written", 4, "testing"⟩),
   ("bf", ⟨"Bug Fixed", 5, "development"⟩),
   ("cq", ⟨"Code Quality", 3, "testing"⟩),
   ("cp", ⟨"CI Passed", 3, "deployment"⟩),
   ("tr", ⟨"Tests Red", 7, "testing"⟩),
   ("tg", ⟨"Tests Green", 2, "testing"⟩),
   ("cf", ⟨"CI Failed", 8, "deployment"⟩),
   ("pc", ⟨"Pre-release Complete", 4, "deployment"⟩),
   ("rg", ⟨"Review Progress", 4, "coordination"⟩),
   ("cd", ⟨"Cleanup Done", 2, "deployment"⟩),
   ("rv", ⟨"Review Passed", 3, "testing"⟩),
   ("iv", ⟨"Implementation Verified", 4, "testing"⟩),
   ("ra", ⟨"Release Approved", 6, "deployment"⟩),
   ("mg", ⟨"Merged", 3, "deployment"⟩),
   ("rl", ⟨"Released", 4, "deployment"⟩),
   ("ps", ⟨"Post-release Status", 3, "deployment"⟩),
   ("ic", ⟨"Incident", 9, "incident"⟩),
   ("JC", ⟨"Jesus Christ (Incident Resolved)", 10, "incident"⟩),
   ("pm", ⟨"Post-mortem", 5, "incident"⟩),
   ("oa", ⟨"Orchestrator Attention", 7, "coordination"⟩),
   ("aa", ⟨"Admin Attention", 8, "communication"⟩),
   ("ap", ⟨"Admin Preview Ready", 5, "communication"⟩),
   ("du", ⟨"Design Update", 3, "design"⟩),
   ("ds", ⟨"Design System Updated", 4, "design"⟩),
   ("dr", ⟨"Design Review Requested", 5, "design"⟩),
   ("dh", ⟨"Design Handoff Ready", 4, "design"⟩),
   ("df", ⟨"Design Feedback Received", 4, "design"⟩),
   ("di", ⟨"Design Issue Identified", 6, "design"⟩),
   ("dt", ⟨"Design Testing Complete", 3, "testing"⟩)]

/-- `create_signal_folder` writes exactly these four files into the
folder named after the code (the written text is generated source whose
content no stated property depends on; we record the file paths). -/
def createSignalFolder (signalCode : String) : List String :=
  [signalCode ++ "/scanner.py", signalCode ++ "/inspector.py",
   signalCode ++ "/orchestrator.py", signalCode ++ "/inspector.md"]

/-- The `main` loop of the generator: each entry is attempted inside
`try/except`, so a fault in one entry is logged and the loop moves on to
the next entry.  `gen` is the (possibly faulting) per-entry generation. -/
def runBatch (gen : String → SignalInfo → Except String (List String)) :
    List (String × SignalInfo) → List (String × Except String (List String))
  | [] => []
  | e :: rest =>
      match gen e.1 e.2 with
      | Except.ok files => (e.1, Except.ok files) :: runBatch gen rest
      | Except.error msg => (e.1, Except.error msg) :: runBatch gen rest

/-- The fault-free generation used when no entry faults. -/
def genOk : String → SignalInfo → Except String (List String) :=
  fun code _ => Except.ok (createSignalFolder code)

/-!
## PR-analysis validator
(src/src/guidelines/DE/pull-request-analysis/inspector.py)

Report values are modelled as a small Python-value type; `in`/subscript
follow Python semantics (`key in dict` is key lookup, `sub in str` is
substring search, `x in list` compares elements for equality — a string
key can only equal a string element — and `in`/subscript on an int raise
`TypeError`, modelled as `Except.error`).  Python `bool` ints are not
modelled; no report field in the contract carries one.
-/

inductive PyVal where
  | int (n : ℤ)
  | str (s : String)
  | list (xs : List PyVal)
  | dict (kvs : List (String × PyVal))

/-- Python `field in value` for a string `field`. -/
def pyIn (k : String) : PyVal → Except String Bool
  | PyVal.dict kvs => Except.ok (kvs.lookup k).isSome
  | PyVal.str s => Except.ok (strContains s k)
  | PyVal.list xs =>
      Except.ok (xs.any (fun v => match v with
        | PyVal.str t => t = k
        | _ => false))
  | PyVal.int _ => Except.error "TypeError: argument of type int is not iterable"

/-- Python `value[field]` for a string `field` (reached only after a
successful `in` check in the validator). -/
def pySubscript (k : String) : PyVal → Except String PyVal
  | PyVal.dict kvs =>
      match kvs.lookup k with
      | some v => Except.ok v
      | none => Except.error "KeyError"
  | _ => Except.error "TypeError: value is not subscriptable by a string"

/-- The required classification fields of `validate_inspector_output`. -/
def classificationRequired : List String :=
  ["category", "priority", "agentRole", "confidence"]

/-- The required recommendation fields of `validate_inspector_output`. -/
def recommendationRequired : List String :=
  ["type", "description", "estimatedTime"]

/-- The missing-field loop over the classification value. -/
def missingClassificationErrors (c : PyVal) : Except String (List String) :=
  classificationRequired.foldlM
    (fun acc f => do
      let b ← pyIn f c
      pure (if b then acc
            else acc ++ ["Missing required field in classification: " ++ f])) []

/-- The priority range check (`isinstance(p, int) and 1 <= p <= 10`). -/
def priorityRangeErrors (c : PyVal) : Except String (List String) := do
  let b ← pyIn "priority" c
  if b then
    let v ← pySubscript "priority" c
    pure (match v with
      | PyVal.int n => if n < 1 ∨ 10 < n then ["Priority must be an integer between 1 and 10"] else []
      | _ => ["Priority must be an integer between 1 and 10"])
  else pure []

/-- The confidence range check. -/
def confidenceRangeErrors (c : PyVal) : Except String (List String) := do
  let b ← pyIn "confidence" c
  if b then
    let v ← pySubscript "confidence" c
    pure (match v with
      | PyVal.int n => if n < 0 ∨ 100 < n then ["Confidence must be an integer between 0 and 100"] else []
      | _ => ["Confidence must be an integer between 0 and 100"])
  else pure []

/-- Per-recommendation checks: non-dict entries get one message and are
skipped (`continue`), dict entries get missing-field messages and the
estimatedTime range check. -/
def recommendationItemErrors (i : Nat) : PyVal → List String
  | PyVal.dict kvs =>
      (recommendationRequired.foldl
        (fun acc f => if (kvs.lookup f).isSome then acc
          else acc ++ ["Recommendation " ++ toString i ++ " missing required field: " ++ f]) []) ++
      (match kvs.lookup "estimatedTime" with
       | some (PyVal.int n) =>
           if n < 1 ∨ 480 < n then
             ["Recommendation " ++ toString i ++ " estimatedTime must be between 1 and 480 minutes"]
           else []
       | some _ =>
           ["Recommendation " ++ toString i ++ " estimatedTime must be between 1 and 480 minutes"]
       | none => [])
  | _ => ["Recommendation " ++ toString i ++ " must be an object"]

/-- The recommendations section of the validator. -/
def recommendationErrors : PyVal → List String
  | PyVal.list xs => (xs.enum.map (fun p => recommendationItemErrors p.1 p.2)).flatten
  | _ => ["Recommendations must be an array"]

/-- `validate_inspector_output` over a report dict; `Except.error` marks
an uncaught Python exception (possible only through a classification
value of unexpected type). -/
def validateInspectorOutput (data : List (String × PyVal)) :
    Except String (List String) := do
  let top :=
    (if (data.lookup "classification").isSome then []
     else ["Missing required field: classification"]) ++
    (if (data.lookup "recommendations").isSome then []
     else ["Missing required field: recommendations"])
  let classErrs ←
    match data.lookup "classification" with
    | none => pure []
    | some c => do
        let m ← missingClassificationErrors c
        let p ← priorityRangeErrors c
        let cf ← confidenceRangeErrors c
        pure (m ++ p ++ cf)
  let recErrs :=
    match data.lookup "recommendations" with
    | none => []
    | some r => recommendationErrors r
  pure (top ++ classErrs ++ recErrs)

/-- The bundled `example_output` (the `deadline` value is a
clock-derived timestamp string that the validator never reads; a fixed
placeholder stands in for it). -/
def exampleOutput : List (String × PyVal) :=
  [("classification", PyVal.dict
      [("category", PyVal.str "development"),
       ("subcategory", PyVal.str "pull-request-analysis"),
       ("priority", PyVal.int 7),
       ("agentRole", PyVal.str "robo-developer"),
       ("escalationLevel", PyVal.int 2),
       ("deadline", PyVal.str "2025-01-01T00:00:00"),
       ("dependencies", PyVal.list []),
       ("confidence", PyVal.int 85)]),
   ("recommendations", PyVal.list
      [PyVal.dict
        [("type", PyVal.str "review"),
         ("priority", PyVal.str "high"),
         ("description", PyVal.str "Review the implementation for completeness and add missing test cases"),
         ("estimatedTime", PyVal.int 60),
         ("prerequisites", PyVal.list [PyVal.str "Complete code review"]),
         ("reasoning", PyVal.str "Implementation looks good but needs more comprehensive testing")],
       PyVal.dict
        [("type", PyVal.str "test"),
         ("priority", PyVal.str "medium"),
         ("description", PyVal.str "Add integration tests for the new functionality"),
         ("estimatedTime", PyVal.int 120),
         ("prerequisites", PyVal.list [PyVal.str "Unit tests completed"]),
         ("reasoning", PyVal.str "Integration tests are needed to verify component interactions")]])]

/-- `example_output` with `confidence` replaced by 150. -/
def exampleOutputConfidence150 : List (String × PyVal) :=
  exampleOutput.map (fun kv =>
    if kv.1 = "classification" then
      (kv.1, match kv.2 with
        | PyVal.dict kvs => PyVal.dict (kvs.map (fun f =>
            if f.1 = "confidence" then (f.1, PyVal.int 150) else f))
        | v => v)
    else kv)

/-!
## Service scaffold, users router
(src/templates/fastapi/app/routers/users.py, src/templates/fastapi/app/main.py)

The clock (`datetime.now()`) is an explicit `now : Nat` parameter, the
random token (`secrets.token_urlsafe`) an explicit `freshTok` parameter.
The JSON mirror written by `save_users()` is the `mirror` field.
-/

/-- Modelled from the spec: the external password-hashing capability
(passlib `CryptContext`, bcrypt), treated as a deterministic tagging
function with matching verification — the repository never inspects hash
internals. -/
def getPasswordHash (password : String) : String :=
  "bcrypt$" ++ password

/-- Modelled from the spec: `pwd_context.verify`. -/
def verifyPassword (plain hashed : String) : Bool :=
  hashed = getPasswordHash plain

/-- One stored user record (`users_db` value). -/
structure UserRec where
  id : Nat
  email : String
  username : String
  fullName : Option String
  hashedPassword : String
  isActive : Bool
  isSuperuser : Bool
  createdAt : Nat
  lastLogin : Option Nat
deriving DecidableEq

/-- Python `d[k] = v` on a dict: update in place, else append. -/
def setKey {α β : Type} [DecidableEq α] : List (α × β) → α → β → List (α × β)
  | [], k, v => [(k, v)]
  | (k', v') :: rest, k, v =>
      if k' = k then (k', v) :: rest else (k', v') :: setKey rest k v

/-- Python `del d[k]` on a dict (keys are unique). -/
def delKey {α β : Type} [DecidableEq α] : List (α × β) → α → List (α × β)
  | [], _ => []
  | (k', v') :: rest, k =>
      if k' = k then rest else (k', v') :: delKey rest k

/-- The process-wide stores of the users router. -/
structure UsersState where
  usersDb : List (Nat × UserRec)
  usersByUsername : List (String × Nat)
  usersByEmail : List (String × Nat)
  nextId : Nat
  tokensDb : List (String × (String × Nat))
  mirror : List (Nat × UserRec)
deriving DecidableEq

/-- An HTTP error response (`HTTPException`). -/
structure Http where
  status : Nat
  detail : String
deriving DecidableEq

deriving instance DecidableEq for Except

/-- `get_user_by_username` (note the Python truthiness test
`if user_id and user_id in users_db`: a zero id is falsy). -/
def getUserByUsername (st : UsersState) (username : String) : Option UserRec :=
  match st.usersByUsername.lookup username with
  | none => none
  | some uid => if uid ≠ 0 then st.usersDb.lookup uid else none

/-- `authenticate_user`: on a verified password it mutates the stored
record (`last_login`) and rewrites the JSON mirror (`save_users()`)
before returning the user. -/
def authenticateUser (now : Nat) (username password : String) (st : UsersState) :
    Option UserRec × UsersState :=
  match getUserByUsername st username with
  | none => (none, st)
  | some _ =>
      match st.usersByUsername.lookup username with
      | none => (none, st)
      | some uid =>
          match st.usersDb.lookup uid with
          | none => (none, st)
          | some u =>
              if verifyPassword password u.hashedPassword then
                let u2 := { u with lastLogin := some now }
                let db2 := setKey st.usersDb uid u2
                (some u2, { st with usersDb := db2, mirror := db2 })
              else (none, st)

/-- `create_access_token` (token store is memory-only, not mirrored). -/
def createAccessToken (now : Nat) (freshTok sub : String) (st : UsersState) :
    String × UsersState :=
  (freshTok, { st with tokensDb := setKey st.tokensDb freshTok (sub, now + 3600) })

/-- `POST /api/v1/users/login`. -/
def loginUser (now : Nat) (freshTok : String) (username password : String)
    (st : UsersState) : Except Http (String × String × Nat) × UsersState :=
  match authenticateUser now username password st with
  | (none, st1) => (Except.error ⟨401, "Incorrect username or password"⟩, st1)
  | (some u, st1) =>
      if ¬ u.isActive then (Except.error ⟨400, "Inactive user"⟩, st1)
      else
        let (tok, st2) := createAccessToken now freshTok u.username st1
        (Except.ok (tok, "bearer", 3600), st2)

/-- `POST /api/v1/users/register`. -/
def registerUser (now : Nat) (email username password : String)
    (fullName : Option String) (st : UsersState) :
    Except Http UserRec × UsersState :=
  if (st.usersByUsername.lookup username).isSome then
    (Except.error ⟨400, "Username already registered"⟩, st)
  else if (st.usersByEmail.lookup email).isSome then
    (Except.error ⟨400, "Email already registered"⟩, st)
  else
    let u : UserRec :=
      ⟨st.nextId, email, username, fullName, getPasswordHash password,
       true, false, now, none⟩
    let db2 := setKey st.usersDb st.nextId u
    (Except.ok u,
      { st with usersDb := db2,
                usersByUsername := setKey st.usersByUsername username st.nextId,
                usersByEmail := setKey st.usersByEmail email st.nextId,
                nextId := st.nextId + 1,
                mirror := db2 })

/-- The update payload (`UserUpdate` with `exclude_unset`): `none` is an
unset field.  (Explicitly supplied nulls are not modelled; no stated
property involves them.) -/
structure UserUpdate where
  email : Option String
  username : Option String
  fullName : Option String
  isActive : Option Bool
  password : Option String
deriving DecidableEq

/-- Apply the `update_data` loop of `update_user` to the stored record. -/
def applyUpdate (u : UserRec) (upd : UserUpdate) : UserRec :=
  { u with
    email := upd.email.getD u.email
    username := upd.username.getD u.username
    fullName := match upd.fullName with
                | some f => some f
                | none => u.fullName
    isActive := upd.isActive.getD u.isActive
    hashedPassword := match upd.password with
                      | some p => getPasswordHash p
                      | none => u.hashedPassword }

/-- The tail of `update_user`: write the updated record back into
`users_db` and save the mirror. -/
def updateUserFinish (userId : Nat) (upd : UserUpdate) (st : UsersState)
    (existing : UserRec) : Except Http UserRec × UsersState :=
  let u2 := applyUpdate existing upd
  let db2 := setKey st.usersDb userId u2
  (Except.ok u2, { st with usersDb := db2, mirror := db2 })

/-- The email step of `update_user`: runs after the username step, on
the state the username step may already have modified. -/
def updateUserEmailStep (userId : Nat) (upd : UserUpdate) (st : UsersState)
    (existing : UserRec) : Except Http UserRec × UsersState :=
  match upd.email with
  | some newE =>
      if newE ≠ "" ∧ newE ≠ existing.email then
        if (st.usersByEmail.lookup newE).isSome then
          (Except.error ⟨400, "Email already exists"⟩, st)
        else
          let byEmail2 := setKey (delKey st.usersByEmail existing.email) newE userId
          updateUserFinish userId upd { st with usersByEmail := byEmail2 } existing
      else updateUserFinish userId upd st existing
  | none => updateUserFinish userId upd st existing

/-- `PUT /api/v1/users/{user_id}`.  The username index is rewritten
before the duplicate-email check runs, so an email conflict can leave a
half-updated state behind. -/
def updateUser (userId : Nat) (upd : UserUpdate) (st : UsersState) :
    Except Http UserRec × UsersState :=
  match st.usersDb.lookup userId with
  | none => (Except.error ⟨404, "User not found"⟩, st)
  | some existing =>
      match upd.username with
      | some newU =>
          if newU ≠ "" ∧ newU ≠ existing.username then
            if (st.usersByUsername.lookup newU).isSome then
              (Except.error ⟨400, "Username already exists"⟩, st)
            else
              let byUser2 := setKey (delKey st.usersByUsername existing.username) newU userId
              updateUserEmailStep userId upd { st with usersByUsername := byUser2 } existing
          else updateUserEmailStep userId upd st existing
      | none => updateUserEmailStep userId upd st existing

/-- `DELETE /api/v1/users/{user_id}`. -/
def deleteUser (userId : Nat) (st : UsersState) :
    Except Http String × UsersState :=
  match st.usersDb.lookup userId with
  | none => (Except.error ⟨404, "User not found"⟩, st)
  | some u =>
      let db2 := delKey st.usersDb userId
      (Except.ok ("User " ++ toString userId ++ " deleted successfully"),
        { st with usersDb := db2,
                  usersByUsername := delKey st.usersByUsername u.username,
                  usersByEmail := delKey st.usersByEmail u.email,
                  mirror := db2 })

/-!
## Service scaffold, items router (src/templates/fastapi/app/routers/items.py)

Same conventions as the users router: the clock is an explicit `now`
parameter, the JSON mirror written by `save_items()` is the `mirror`
field.  Prices are Python floats, modelled as rationals; no stated
property depends on float rounding.
-/

/-- One stored item (`items_db` value). -/
structure ItemRec where
  id : Nat
  name : String
  description : Option String
  price : Option ℚ
  category : Option String
  createdAt : Nat
  updatedAt : Nat
deriving DecidableEq

/-- The process-wide stores of the items router. -/
structure ItemsState where
  itemsDb : List (Nat × ItemRec)
  nextId : Nat
  mirror : List (Nat × ItemRec)
deriving DecidableEq

/-- The `ItemCreate` request body. -/
structure ItemCreate where
  name : String
  description : Option String
  price : Option ℚ
  category : Option String
deriving DecidableEq

/-- The `ItemUpdate` body with `exclude_unset`: `none` is an unset
field.  (Explicitly supplied nulls are not modelled; no stated property
involves them.) -/
structure ItemUpdate where
  name : Option String
  description : Option String
  price : Option ℚ
  category : Option String
deriving DecidableEq

/-- `GET /api/v1/items/{item_id}` (read-only: it touches no store). -/
def getItem (itemId : Nat) (st : ItemsState) : Except Http ItemRec :=
  match st.itemsDb.lookup itemId with
  | none => Except.error ⟨404, "Item not found"⟩
  | some it => Except.ok it

/-- `POST /api/v1/items/` (no failure path: assigns the next id, stamps
both timestamps, saves the mirror). -/
def createItem (now : Nat) (c : ItemCreate) (st : ItemsState) :
    Except Http ItemRec × ItemsState :=
  let it : ItemRec :=
    ⟨st.nextId, c.name, c.description, c.price, c.category, now, now⟩
  let db2 := setKey st.itemsDb st.nextId it
  (Except.ok it, ⟨db2, st.nextId + 1, db2⟩)

/-- The `update_data` loop of `update_item`: only supplied fields
change, and `updated_at` is always restamped. -/
def applyItemUpdate (it : ItemRec) (upd : ItemUpdate) (now : Nat) : ItemRec :=
  { it with
    name := upd.name.getD it.name
    description := match upd.description with
                   | some d => some d
                   | none => it.description
    price := match upd.price with
             | some p => some p
             | none => it.price
    category := match upd.category with
                | some c => some c
                | none => it.category
    updatedAt := now }

/-- `PUT /api/v1/items/{item_id}`: the 404 is raised before any
mutation. -/
def updateItem (now : Nat) (itemId : Nat) (upd : ItemUpdate) (st : ItemsState) :
    Except Http ItemRec × ItemsState :=
  match st.itemsDb.lookup itemId with
  | none => (Except.error ⟨404, "Item not found"⟩, st)
  | some existing =>
      let it2 := applyItemUpdate existing upd now
      let db2 := setKey st.itemsDb itemId it2
      (Except.ok it2, { st with itemsDb := db2, mirror := db2 })

/-- `DELETE /api/v1/items/{item_id}`: the 404 is raised before any
mutation. -/
def deleteItem (itemId : Nat) (st : ItemsState) :
    Except Http String × ItemsState :=
  match st.itemsDb.lookup itemId with
  | none => (Except.error ⟨404, "Item not found"⟩, st)
  | some _ =>
      let db2 := delKey st.itemsDb itemId
      (Except.ok ("Item " ++ toString itemId ++ " deleted successfully"),
        { st with itemsDb := db2, mirror := db2 })

/-- `verify_token` (`routers/users.py`): present and unexpired tokens
resolve to their subject; expired tokens are deleted and rejected. -/
def verifyToken (now : Nat) (token : String)
    (tokens : List (String × (String × Nat))) :
    Option String × List (String × (String × Nat)) :=
  match tokens.lookup token with
  | none => (none, tokens)
  | some (sub, expiresAt) =>
      if expiresAt < now then (none, delKey tokens token)
      else (some sub, tokens)

/-!
## Service scaffold, protected endpoint (src/templates/fastapi/app/main.py)
-/

/-- The dict returned by `get_current_user` for a presented token. -/
structure CurrentUser where
  userId : String
deriving DecidableEq

/-- `get_current_user`: `HTTPBearer(auto_error=False)` yields `none`
without a bearer token; any presented token becomes a user dict from its
first ten characters, with no validation. -/
def getCurrentUser : Option String → Option CurrentUser
  | none => none
  | some tok => some ⟨tok.take 10⟩

/-- The success body of `GET /api/v1/protected`. -/
structure ProtectedResp where
  message : String
  user : CurrentUser
  data : String
deriving DecidableEq

/-- `GET /api/v1/protected`. -/
def protectedRoute (credentials : Option String) : Except Http ProtectedResp :=
  match getCurrentUser credentials with
  | none => Except.error ⟨401, "Authentication required"⟩
  | some u => Except.ok ⟨"Access granted", u, "This is protected content"⟩

/-!
## Source text of the ap inspector file head
(src/src/guidelines/EN/signals/ap/inspector.py, lines 1-22, verbatim)
-/

/-- Lines 1-22 of `src/src/guidelines/EN/signals/ap/inspector.py`,
exactly as in the tree, ending at the `POOR = "poor")` member. -/
def apInspectorHead : String :=
  "\"\"\"\nAdmin Preview Ready Signal Inspector Implementation\n\nProcesses [ap] - Admin Preview Ready signals for comprehensive package validation.\n\"\"\"\n\nimport asyncio\nimport re\nfrom typing import Dict, Any, List, Optional, Tuple\nfrom datetime import datetime\nfrom enum import Enum\n\nclass ReadinessLevel(Enum):\n    READY = \"ready\"\n    NEEDS_IMPROVEMENT = \"needs_improvement\"\n    NOT_READY = \"not_ready\"\n\nclass QualityLevel(Enum):\n    EXCELLENT = \"excellent\"\n    GOOD = \"good\"\n    ADEQUATE = \"adequate\"\n    POOR = \"poor\")\n"

/-- Scan Python-like source for parenthesis balance outside
double-quoted string literals: `none` marks a closing parenthesis with no
matching opener (a Python `SyntaxError: unmatched ')'`), otherwise the
open depth at the end is returned. -/
def parenScan : List Char → Bool → Nat → Option Nat
  | [], _, depth => some depth
  | c :: cs, true, depth => parenScan cs (c ≠ '"') depth
  | c :: cs, false, depth =>
      if c = '"' then parenScan cs true depth
      else if c = '(' then parenScan cs false (depth + 1)
      else if c = ')' then
        (if depth = 0 then none else parenScan cs false (depth - 1))
      else parenScan cs false depth

/-- A closing parenthesis with no opener occurs in the text. -/
def hasUnmatchedCloseParen (s : String) : Bool :=
  (parenScan s.toList false 0).isNone

/-!
## Concrete fixtures used by the statements below
-/

/-- A preview package offering all five generic components and the four
analysis-specific extras: 9 components present against 8 required. -/
def pdOverfull : PreviewData :=
  ⟨fun k => (["executive_summary", "detailed_content", "visual_elements",
      "success_metrics", "recommendations", "methodology", "data_sources",
      "findings", "visualizations"] : List String).contains k, 0⟩

/-- A stored user whose account is inactive but whose password is valid. -/
def aliceRec : UserRec :=
  ⟨1, "alice@example.com", "alice", none, getPasswordHash "pw", false, false, 0, none⟩

/-- A one-user store (with consistent secondary indexes and mirror). -/
def stInactive : UsersState :=
  ⟨[(1, aliceRec)], [("alice", 1)], [("alice@example.com", 1)], 2, [], [(1, aliceRec)]⟩

/-- A one-item store (with consistent mirror). -/
def stOneItem : ItemsState :=
  ⟨[(1, ⟨1, "widget", none, some 5, some "tools", 0, 0⟩)], 2,
   [(1, ⟨1, "widget", none, some 5, some "tools", 0, 0⟩)]⟩

/-- The shapes a violation string of `validate_inspector_output` can
take: a missing required field, or a numeric range failure of priority,
confidence or a recommendation estimatedTime — never an enum-membership
or string-length complaint. -/
def violationShape (e : String) : Prop :=
  e = "Missing required field: classification" ∨
  e = "Missing required field: recommendations" ∨
  (∃ f, f ∈ classificationRequired ∧
    e = "Missing required field in classification: " ++ f) ∨
  e = "Priority must be an integer between 1 and 10" ∨
  e = "Confidence must be an integer between 0 and 100" ∨
  e = "Recommendations must be an array" ∨
  (∃ i : Nat, e = "Recommendation " ++ toString i ++ " must be an object") ∨
  (∃ i : Nat, ∃ f, f ∈ recommendationRequired ∧
    e = "Recommendation " ++ toString i ++ " missing required field: " ++ f) ∨
  (∃ i : Nat,
    e = "Recommendation " ++ toString i ++ " estimatedTime must be between 1 and 480 minutes")

/-!
## Helper lemmas: substring search and the regex model
-/

theorem headMatches_iff {α : Type} [DecidableEq α] (n h : List α) :
    headMatches n h = true ↔ ∃ t, h = n ++ t := by
  induction n generalizing h with
  | nil => simp [headMatches]
  | cons a as ih =>
      cases h with
      | nil => simp [headMatches]
      | cons b bs =>
          simp only [headMatches, Bool.and_eq_true, decide_eq_true_eq, ih]
          constructor
          · rintro ⟨rfl, t, rfl⟩; exact ⟨t, rfl⟩
          · rintro ⟨t, ht⟩
            injection ht with h1 h2
            exact ⟨h1.symm, t, h2⟩

theorem containsSub_iff {α : Type} [DecidableEq α] (n h : List α) :
    containsSub n h = true ↔ ∃ l₁ l₂, h = l₁ ++ n ++ l₂ := by
  induction h with
  | nil =>
      simp only [containsSub, List.isEmpty_iff]
      constructor
      · rintro rfl; exact ⟨[], [], rfl⟩
      · rintro ⟨l₁, l₂, hl⟩
        rcases List.append_eq_nil.mp hl.symm with ⟨h1, h2⟩
        exact (List.append_eq_nil.mp h1).2
  | cons b bs ih =>
      simp only [containsSub, Bool.or_eq_true, headMatches_iff, ih]
      constructor
      · rintro (⟨t, ht⟩ | ⟨l₁, l₂, rfl⟩)
        · exact ⟨[], t, by simpa using ht⟩
        · exact ⟨b :: l₁, l₂, rfl⟩
      · rintro ⟨l₁, l₂, hl⟩
        cases l₁ with
        | nil => exact Or.inl ⟨l₂, by simpa using hl⟩
        | cons c cs =>
            injection hl with h1 h2
            exact Or.inr ⟨cs, l₂, h2⟩

theorem strContains_iff (haystack needle : String) :
    strContains haystack needle = true ↔
      ∃ l₁ l₂, haystack.toList = l₁ ++ needle.toList ++ l₂ :=
  containsSub_iff _ _

/-- A pattern of plain literals matches its own text at the head of any
extension, returning that text. -/
theorem matchHere_lit_self (l rest : List Char) :
    matchHere (l.map RAtom.lit) (l ++ rest) = some l := by
  induction l with
  | nil => simp [matchHere]
  | cons c cs ih => simp [matchHere, ih]

/-- Whatever a literal pattern matches agrees with the pattern text up
to `Char.toLower` (the `re.IGNORECASE` comparison). -/
theorem matchHere_lit_toLower (l : List Char) :
    ∀ cs m, matchHere (l.map RAtom.lit) cs = some m →
      m.map Char.toLower = l.map Char.toLower := by
  induction l with
  | nil => intro cs m h; simp [matchHere] at h; simp [← h]
  | cons c cs ih =>
      intro ds m h
      cases ds with
      | nil => simp [matchHere] at h
      | cons d ds' =>
          simp only [List.map_cons, matchHere] at h
          by_cases hc : c.toLower = d.toLower
          · simp only [if_pos hc, Option.map_eq_some'] at h
            obtain ⟨m', hm', rfl⟩ := h
            simp [ih ds' m' hm', hc]
          · simp [if_neg hc] at h

/-- A successful match consumes a prefix of the scanned characters. -/
theorem matchHere_append (p : List RAtom) :
    ∀ cs m, matchHere p cs = some m → ∃ t, cs = m ++ t := by
  induction p with
  | nil => intro cs m h; simp [matchHere] at h; exact ⟨cs, by simp [← h]⟩
  | cons a ps ih =>
      intro cs m h
      cases a with
      | lit c =>
          cases cs with
          | nil => simp [matchHere] at h
          | cons d ds =>
              simp only [matchHere] at h
              by_cases hc : c.toLower = d.toLower
              · simp only [if_pos hc, Option.map_eq_some'] at h
                obtain ⟨m', hm', rfl⟩ := h
                obtain ⟨t, rfl⟩ := ih ds m' hm'
                exact ⟨t, rfl⟩
              · simp [if_neg hc] at h
      | anyOpt =>
          cases cs with
          | nil =>
              simp only [matchHere] at h
              obtain ⟨t, ht⟩ := ih [] m h
              rcases List.append_eq_nil.mp ht.symm with ⟨rfl, rfl⟩
              exact ⟨[], rfl⟩
          | cons d ds =>
              simp only [matchHere] at h
              by_cases hn : d = '\n'
              · simp only [if_pos hn] at h
                exact ih (d :: ds) m h
              · simp only [if_neg hn] at h
                cases hm : matchHere ps ds with
                | some m' =>
                    rw [hm] at h
                    injection h with h'
                    obtain ⟨t, rfl⟩ := ih ds m' hm
                    exact ⟨t, by simp [← h']⟩
                | none =>
                    rw [hm] at h
                    exact ih (d :: ds) m h

/-- If the pattern matches at the start of some suffix, `re.search`
reports a match. -/
theorem reSearch_of_suffix (p : List RAtom) :
    ∀ l₁ l₂, (matchHere p l₂).isSome → reSearch p (l₁ ++ l₂) = true := by
  intro l₁
  induction l₁ with
  | nil =>
      intro l₂ h
      cases l₂ with
      | nil => simpa [reSearch] using h
      | cons d ds => simp [reSearch, h]
  | cons c cs ih =>
      intro l₂ h
      simp [reSearch, ih l₂ h]

/-- Fuel does not matter once it exceeds the text length: the scan is
never cut short. -/
theorem findIterFuel_congr (p : List RAtom) :
    ∀ f1 f2 cs i, cs.length < f1 → cs.length < f2 →
      findIterFuel p f1 cs i = findIterFuel p f2 cs i := by
  intro f1
  induction f1 with
  | zero => intro f2 cs i h1; omega
  | succ f1 ih =>
      intro f2 cs i h1 h2
      cases f2 with
      | zero => omega
      | succ f2 =>
          cases cs with
          | nil => rfl
          | cons d ds =>
              simp only [findIterFuel]
              cases hm : matchHere p (d :: ds) with
              | none => exact ih f2 ds (i + 1) (by simp at h1; omega) (by simp at h2; omega)
              | some m =>
                  cases m with
                  | nil =>
                      rw [ih f2 ds (i + 1) (by simp at h1; omega) (by simp at h2; omega)]
                  | cons m0 ms =>
                      dsimp only
                      rw [ih f2 (ds.drop ms.length) (i + 1 + ms.length) ?_ ?_]
                      · have := List.length_drop ms.length ds
                        simp at h1
                        omega
                      · have := List.length_drop ms.length ds
                        simp at h2
                        omega

/-- If the pattern matches at the start of some suffix, `re.finditer`
returns at least one match. -/
theorem findIterFuel_ne_nil_of_suffix (p : List RAtom) :
    ∀ l₁ l₂ fuel i, (l₁ ++ l₂).length < fuel → (matchHere p l₂).isSome →
      findIterFuel p fuel (l₁ ++ l₂) i ≠ [] := by
  intro l₁
  induction l₁ with
  | nil =>
      intro l₂ fuel i hfuel h
      cases fuel with
      | zero => omega
      | succ fuel =>
          cases l₂ with
          | nil =>
              simp only [List.nil_append, findIterFuel]
              cases hm : matchHere p [] with
              | none => rw [hm] at h; simp at h
              | some m => simp
          | cons d ds =>
              simp only [List.nil_append, findIterFuel]
              cases hm : matchHere p (d :: ds) with
              | none => rw [hm] at h; simp at h
              | some m => cases m <;> simp
  | cons c cs ih =>
      intro l₂ fuel i hfuel h
      cases fuel with
      | zero => omega
      | succ fuel =>
          simp only [List.cons_append, findIterFuel]
          cases hm : matchHere p (c :: (cs ++ l₂)) with
          | none =>
              exact ih l₂ fuel (i + 1) (by simp at hfuel ⊢; omega) h
          | some m => cases m <;> simp

theorem findIter_ne_nil_of_suffix (p : List RAtom) (l₁ l₂ : List Char) (i : Nat)
    (h : (matchHere p l₂).isSome) : findIter p (l₁ ++ l₂) i ≠ [] :=
  findIterFuel_ne_nil_of_suffix p l₁ l₂ ((l₁ ++ l₂).length + 1) i (Nat.lt_succ_self _) h

/-- Every match reported by `re.finditer` is a verbatim slice of the
scanned characters. -/
theorem findIterFuel_mem_split (p : List RAtom) :
    ∀ fuel cs i jm, jm ∈ findIterFuel p fuel cs i →
      ∃ l₁ l₂, cs = l₁ ++ jm.2 ++ l₂ := by
  intro fuel
  induction fuel with
  | zero => intro cs i jm hmem; simp [findIterFuel] at hmem
  | succ fuel ih =>
      intro cs i jm hmem
      cases cs with
      | nil =>
          simp only [findIterFuel] at hmem
          cases hm : matchHere p [] with
          | none => rw [hm] at hmem; simp at hmem
          | some m =>
              rw [hm] at hmem
              simp only [List.mem_singleton] at hmem
              obtain ⟨t, ht⟩ := matchHere_append p [] m hm
              rcases List.append_eq_nil.mp ht.symm with ⟨rfl, rfl⟩
              exact ⟨[], [], by simp [hmem]⟩
      | cons d ds =>
          simp only [findIterFuel] at hmem
          cases hm : matchHere p (d :: ds) with
          | none =>
              simp only [hm] at hmem
              obtain ⟨l₁, l₂, hds⟩ := ih ds (i + 1) jm hmem
              exact ⟨d :: l₁, l₂, by simp [hds]⟩
          | some m =>
              cases m with
              | nil =>
                  simp only [hm] at hmem
                  rcases List.mem_cons.mp hmem with rfl | hmem2
                  · exact ⟨[], d :: ds, by simp⟩
                  · obtain ⟨l₁, l₂, hds⟩ := ih ds (i + 1) jm hmem2
                    exact ⟨d :: l₁, l₂, by simp [hds]⟩
              | cons m0 ms =>
                  simp only [hm] at hmem
                  rcases List.mem_cons.mp hmem with rfl | hmem2
                  · obtain ⟨t, ht⟩ := matchHere_append p (d :: ds) (m0 :: ms) hm
                    exact ⟨[], t, by simpa using ht⟩
                  · obtain ⟨l₁, l₂, hds⟩ := ih (ds.drop ms.length) _ jm hmem2
                    refine ⟨d :: (ds.take ms.length ++ l₁), l₂, ?_⟩
                    have hsplit : ds = ds.take ms.length ++ ds.drop ms.length :=
                      (List.take_append_drop _ _).symm
                    conv_lhs => rw [hsplit, hds]
                    simp [List.append_assoc]

theorem findIter_mem_split (p : List RAtom) (cs : List Char) (i : Nat)
    (jm : Nat × List Char) (hmem : jm ∈ findIter p cs i) :
    ∃ l₁ l₂, cs = l₁ ++ jm.2 ++ l₂ :=
  findIterFuel_mem_split p (cs.length + 1) cs i jm hmem

/-- Every match of a plain-literal pattern reported by `re.finditer`
equals the pattern text up to `Char.toLower`. -/
theorem findIterFuel_lit_toLower (l : List Char) :
    ∀ fuel cs i jm, jm ∈ findIterFuel (l.map RAtom.lit) fuel cs i →
      jm.2.map Char.toLower = l.map Char.toLower := by
  intro fuel
  induction fuel with
  | zero => intro cs i jm hmem; simp [findIterFuel] at hmem
  | succ fuel ih =>
      intro cs i jm hmem
      cases cs with
      | nil =>
          simp only [findIterFuel] at hmem
          cases hm : matchHere (l.map RAtom.lit) [] with
          | none => rw [hm] at hmem; simp at hmem
          | some m =>
              rw [hm] at hmem
              simp only [List.mem_singleton] at hmem
              rw [hmem]
              exact matchHere_lit_toLower l [] m hm
      | cons d ds =>
          simp only [findIterFuel] at hmem
          cases hm : matchHere (l.map RAtom.lit) (d :: ds) with
          | none =>
              simp only [hm] at hmem
              exact ih ds (i + 1) jm hmem
          | some m =>
              cases m with
              | nil =>
                  simp only [hm] at hmem
                  rcases List.mem_cons.mp hmem with rfl | hmem2
                  · simpa using matchHere_lit_toLower l (d :: ds) [] hm
                  · exact ih ds (i + 1) jm hmem2
              | cons m0 ms =>
                  simp only [hm] at hmem
                  rcases List.mem_cons.mp hmem with rfl | hmem2
                  · simpa using matchHere_lit_toLower l (d :: ds) (m0 :: ms) hm
                  · exact ih (ds.drop ms.length) _ jm hmem2

theorem findIter_lit_toLower (l : List Char) (cs : List Char) (i : Nat)
    (jm : Nat × List Char) (hmem : jm ∈ findIter (l.map RAtom.lit) cs i) :
    jm.2.map Char.toLower = l.map Char.toLower :=
  findIterFuel_lit_toLower l (cs.length + 1) cs i jm hmem

/-- Core of the marker property: if the literal marker occurs in the
content then its literal pattern searches positively and `finditer`
yields a match that equals the marker up to case and is a verbatim
substring of the content. -/
theorem marker_scan_exists (marker content : String)
    (h : strContains content marker = true) :
    reSearch (litPat marker) content.toList = true ∧
    ∃ jm ∈ findIter (litPat marker) content.toList 0,
      jm.2.map Char.toLower = marker.toList.map Char.toLower ∧
      strContains content (String.mk jm.2) = true := by
  obtain ⟨l₁, l₂, hsplit⟩ := (strContains_iff content marker).mp h
  rw [List.append_assoc] at hsplit
  have hmatch : matchHere (litPat marker) (marker.toList ++ l₂) = some marker.toList :=
    matchHere_lit_self marker.toList l₂
  have hsome : (matchHere (litPat marker) (marker.toList ++ l₂)).isSome := by
    rw [hmatch]; rfl
  refine ⟨?_, ?_⟩
  · rw [hsplit]
    exact reSearch_of_suffix _ l₁ _ hsome
  · have hne : findIter (litPat marker) content.toList 0 ≠ [] := by
      rw [hsplit]
      exact findIter_ne_nil_of_suffix _ l₁ _ 0 hsome
    obtain ⟨jm, hjm⟩ := List.exists_mem_of_ne_nil _ hne
    refine ⟨jm, hjm, ?_, ?_⟩
    · exact findIter_lit_toLower marker.toList content.toList 0 jm hjm
    · obtain ⟨a, b, hab⟩ := findIter_mem_split (litPat marker) content.toList 0 jm hjm
      exact (strContains_iff content (String.mk jm.2)).mpr ⟨a, b, hab⟩

/-- C1: for every scanner in the tree (FFScanner and
HealthFeedbackScanner) and every input containing the literal bracketed
marker, `should_emit_signal` is true and `scan_content` returns at least
one Signal whose `data.raw_signal` is the matched substring: it occurs
verbatim in the input and equals the marker under the case-insensitive
comparison the regex applies. -/
theorem C1_scanner_marker_detection (c1 c2 src1 src2 : String)
    (h1 : strContains c1 "[FF]" = true) (h2 : strContains c2 "[HF]" = true) :
    (shouldEmitSignalFF c1 = true ∧
     ∃ sig ∈ scanContentFF c1 src1,
       sig.rawSignal.toList.map Char.toLower = "[ff]".toList ∧
       strContains c1 sig.rawSignal = true) ∧
    (shouldEmitSignalHF c2 = true ∧
     ∃ sig ∈ scanContentHF c2 src2,
       sig.rawSignal.toList.map Char.toLower = "[hf]".toList ∧
       strContains c2 sig.rawSignal = true) := by
  obtain ⟨hsearch1, jm1, hjm1, hlow1, hsub1⟩ := marker_scan_exists "[FF]" c1 h1
  obtain ⟨hsearch2, jm2, hjm2, hlow2, hsub2⟩ := marker_scan_exists "[HF]" c2 h2
  constructor
  · refine ⟨?_, ?_⟩
    · simp only [shouldEmitSignalFF, List.any_eq_true]
      exact ⟨("\\[FF\\]", litPat "[FF]"), by simp [ffPatterns], hsearch1⟩
    · refine ⟨{ type := "[FF]", priority := 10, source := src1,
                rawSignal := String.mk jm1.2, pattern := "\\[FF\\]",
                context := extractContext c1 jm1.1 200 4,
                errorType := some (classifyErrorType (String.mk jm1.2) c1),
                guideline := "FF", agent := "fatal-error-scanner",
                critical := true }, ?_, ?_, hsub1⟩
      · simp only [scanContentFF, List.mem_flatten, List.mem_map]
        exact ⟨_, ⟨("\\[FF\\]", litPat "[FF]"), by simp [ffPatterns], rfl⟩,
               List.mem_map.mpr ⟨jm1, hjm1, rfl⟩⟩
      · simpa using hlow1
  · refine ⟨?_, ?_⟩
    · simp only [shouldEmitSignalHF, List.any_eq_true]
      exact ⟨("\\[HF\\]", litPat "[HF]"), by simp [hfPatterns], hsearch2⟩
    · refine ⟨{ type := "[HF]", priority := 3, source := src2,
                rawSignal := String.mk jm2.2, pattern := "\\[HF\\]",
                context := extractContext c2 jm2.1 100 4,
                errorType := none,
                guideline := "HF", agent := "health-feedback-scanner",
                critical := false }, ?_, ?_, hsub2⟩
      · simp only [scanContentHF, List.mem_flatten, List.mem_map]
        exact ⟨_, ⟨("\\[HF\\]", litPat "[HF]"), by simp [hfPatterns], rfl⟩,
               List.mem_map.mpr ⟨jm2, hjm2, rfl⟩⟩
      · simpa using hlow2

/-- Witness for C1 at concrete inputs. -/
theorem C1_scanner_marker_detection_witness :
    (strContains "boom [FF] down" "[FF]" = true) ∧
    (strContains "ok [HF] go" "[HF]" = true) ∧
    ((shouldEmitSignalFF "boom [FF] down" = true ∧
      ∃ sig ∈ scanContentFF "boom [FF] down" "chat",
        sig.rawSignal.toList.map Char.toLower = "[ff]".toList ∧
        strContains "boom [FF] down" sig.rawSignal = true) ∧
     (shouldEmitSignalHF "ok [HF] go" = true ∧
      ∃ sig ∈ scanContentHF "ok [HF] go" "chat",
        sig.rawSignal.toList.map Char.toLower = "[hf]".toList ∧
        strContains "ok [HF] go" sig.rawSignal = true)) :=
  ⟨by decide, by decide,
   C1_scanner_marker_detection "boom [FF] down" "ok [HF] go" "chat" "chat"
     (by decide) (by decide)⟩

/-- C2: FF severity is base 50 plus an error-type delta, plus an
impact-scope delta, plus 15 on a critical keyword; the returned score is
the raw sum clamped to 100 and the tier name follows the 90/75/60/45
thresholds on the raw sum.  In particular security_breach (+30) with
system-wide impact (+25) and a critical keyword (+15) totals 120, is
clamped to 100 and classified catastrophic.  The error-type delta always
lies in [10, 30]; the impact delta of each recognized scope lies in
[5, 25] (an unrecognized scope adds 0). -/
theorem C2_ff_severity_classification :
    severityScoreRaw "security_breach" "system-wide" "logs: critical" = 120 ∧
    classifySeverity "security_breach" "system-wide" "logs: critical" =
      ("catastrophic", 100) ∧
    (∀ et, 10 ≤ severityAdjustment et ∧ severityAdjustment et ≤ 30) ∧
    (∀ si, si = "system-wide" ∨ si = "major-impact" ∨ si = "partial-impact" →
       5 ≤ impactAdjustment si ∧ impactAdjustment si ≤ 25) ∧
    (∀ si, impactAdjustment si ≤ 25) ∧
    (∀ logs, criticalIndicatorBonus logs = 0 ∨ criticalIndicatorBonus logs = 15) ∧
    (∀ et si logs,
       classifySeverity et si logs =
         (specSeverityTier (severityScoreRaw et si logs),
          pyMinNat 100 (severityScoreRaw et si logs))) := by
  refine ⟨by decide, by decide, ?_, ?_, ?_, ?_, ?_⟩
  · intro et
    simp only [severityAdjustment]
    repeat' split
    all_goals omega
  · rintro si (rfl | rfl | rfl) <;> simp [impactAdjustment]
  · intro si
    simp only [impactAdjustment]
    repeat' split
    all_goals omega
  · intro logs
    simp only [criticalIndicatorBonus]
    split
    · exact Or.inr rfl
    · exact Or.inl rfl
  · intro et si logs
    simp only [classifySeverity, specSeverityTier, pyMinNat]
    repeat' split
    all_goals (first
      | rfl
      | omega)

/-- Witness for C2: the recognized-scope bound applied at system-wide. -/
theorem C2_ff_severity_classification_witness :
    ("system-wide" = "system-wide" ∨ "system-wide" = "major-impact" ∨
      "system-wide" = "partial-impact") ∧
    (5 ≤ impactAdjustment "system-wide" ∧ impactAdjustment "system-wide" ≤ 25) :=
  ⟨Or.inl rfl,
   C2_ff_severity_classification.2.2.2.1 "system-wide" (Or.inl rfl)⟩

/-- C3: the victory score is the weighted blend of the five sub-scores
with weights 0.30/0.25/0.20/0.15/0.10 (as recorded in `victoryWeights`):
all sub-scores 100 give 100.0, all zero give 0.0; a score of 92 with no
remaining issues and health at least 90 yields complete_victory; any
nonempty remaining-issues list, or health below 90, forces
ongoing_recovery regardless of the score. -/
theorem C3_jc_victory_score_and_status :
    calculateVictoryScore 100 100 100 100 100 = 100 ∧
    calculateVictoryScore 0 0 0 0 0 = 0 ∧
    (victoryWeights.map Prod.snd = [30 / 100, 25 / 100, 20 / 100, 15 / 100, 10 / 100]) ∧
    (∀ h : ℚ, 90 ≤ h → determineResolutionStatus [] h 92 = "complete_victory") ∧
    (∀ issues h s, issues ≠ [] →
       determineResolutionStatus issues h s = "ongoing_recovery") ∧
    (∀ issues h s, h < 90 →
       determineResolutionStatus issues h s = "ongoing_recovery") := by
  refine ⟨?_, ?_, rfl, ?_, ?_, ?_⟩
  · norm_num [calculateVictoryScore, pyRound1, pyRoundInt]
  · norm_num [calculateVictoryScore, pyRound1, pyRoundInt]
  · intro h hh
    have hnot : ¬ (([] : List String) ≠ [] ∨ h < 90) := by
      push_neg
      exact ⟨rfl, hh⟩
    simp only [determineResolutionStatus, if_neg hnot]
    norm_num
  · intro issues h s hne
    simp [determineResolutionStatus, hne]
  · intro issues h s hh
    simp [determineResolutionStatus, hh]

/-- Witness for C3 at concrete values. -/
theorem C3_jc_victory_score_and_status_witness :
    ((90 : ℚ) ≤ 95) ∧ (["db lag"] ≠ ([] : List String)) ∧ ((80 : ℚ) < 90) ∧
    determineResolutionStatus [] 95 92 = "complete_victory" ∧
    determineResolutionStatus ["db lag"] 95 99 = "ongoing_recovery" ∧
    determineResolutionStatus [] 80 99 = "ongoing_recovery" :=
  ⟨by norm_num, by decide, by norm_num,
   C3_jc_victory_score_and_status.2.2.2.1 95 (by norm_num),
   C3_jc_victory_score_and_status.2.2.2.2.1 ["db lag"] 95 99 (by decide),
   C3_jc_victory_score_and_status.2.2.2.2.2 [] 80 99 (by norm_num)⟩

/-- The generator loop attempts every entry: a per-entry fault is caught
and recorded, never aborting the remaining entries. -/
theorem runBatch_eq_map (gen : String → SignalInfo → Except String (List String)) :
    ∀ l, runBatch gen l = l.map (fun e => (e.1, gen e.1 e.2)) := by
  intro l
  induction l with
  | nil => rfl
  | cons e rest ih =>
      cases hg : gen e.1 e.2 <;> simp [runBatch, hg, ih]

/-- Counterexample to C5: the `SIGNALS` registry holds 50 entries (the
keys are case-sensitive and pairwise distinct), not 44. -/
theorem C5_cx_registry_has_50_entries :
    SIGNALS.length = 50 ∧ ¬ SIGNALS.length = 44 ∧
    (SIGNALS.map Prod.fst).Nodup := by
  refine ⟨rfl, by decide, by decide⟩

/-- C5 as amended: the registry holds exactly 50 pairwise-distinct
entries; the generator writes exactly 4 files (scanner, inspector,
orchestrator, doc) per entry; and the batch loop processes every entry
of the registry, in order, whatever per-entry faults occur. -/
theorem C5_amended_batch_generation :
    SIGNALS.length = 50 ∧
    (SIGNALS.map Prod.fst).Nodup ∧
    (∀ e ∈ SIGNALS, (createSignalFolder e.1).length = 4) ∧
    (∀ gen, (runBatch gen SIGNALS).map Prod.fst = SIGNALS.map Prod.fst) ∧
    (∀ gen, (runBatch gen SIGNALS).length = 50) := by
  refine ⟨rfl, by decide, ?_, ?_, ?_⟩
  · intro e _
    rfl
  · intro gen
    rw [runBatch_eq_map]
    simp
  · intro gen
    rw [runBatch_eq_map]
    simp only [List.length_map]
    rfl

/-- Witness for C5 as amended: a generation that faults on the FF entry
still yields all 50 results. -/
theorem C5_amended_batch_generation_witness :
    (("FF", (⟨"System Fatal Error", 10, "system"⟩ : SignalInfo)) ∈ SIGNALS) ∧
    (createSignalFolder "FF").length = 4 ∧
    (runBatch (fun code _ =>
        if code = "FF" then Except.error "disk full"
        else Except.ok (createSignalFolder code)) SIGNALS).length = 50 :=
  ⟨by decide,
   C5_amended_batch_generation.2.2.1 ("FF", ⟨"System Fatal Error", 10, "system"⟩)
     (by decide),
   C5_amended_batch_generation.2.2.2.2 (fun code _ =>
     if code = "FF" then Except.error "disk full"
     else Except.ok (createSignalFolder code))⟩

/-- Counterexample to C7: on input "stack overflow" the scanner stores
error type stack_overflow, which is not among the nine outcomes the
claim lists (those are the FF inspector's `_extract_error_type`
catalog, not the scanner's). -/
theorem C7_cx_scanner_outcome_not_in_claimed_catalog :
    classifyErrorType "stack overflow" "stack overflow" = "stack_overflow" ∧
    (scanContentFF "stack overflow" "log").map Signal.errorType =
      [some "stack_overflow"] ∧
    "stack_overflow" ∉
      ["memory_exhaustion", "database_corruption", "system_crash",
       "security_breach", "network_failure", "disk_failure",
       "service_crash", "infrastructure_failure", "unknown_fatal_error"] := by
  refine ⟨rfl, by decide, by decide⟩

/-- C7 as amended: each FF Signal stores in `data.error_type` the result
of the inline classifier on its own raw match and the scanned content;
the classifier's literal outcomes are memory_exhaustion,
database_corruption, stack_overflow, system_crash, data_corruption and
unknown_fatal_error — and data_corruption is unreachable, shadowed by
the database_corruption branch that also tests "corruption". -/
theorem C7_amended_scanner_error_types :
    (∀ content src, ∀ sig ∈ scanContentFF content src,
       sig.errorType = some (classifyErrorType sig.rawSignal content)) ∧
    (∀ em ctx, classifyErrorType em ctx ∈
       ["memory_exhaustion", "database_corruption", "stack_overflow",
        "system_crash", "data_corruption", "unknown_fatal_error"]) ∧
    (∀ em ctx, classifyErrorType em ctx ≠ "data_corruption") ∧
    classifyErrorType "out of memory" "out of memory" = "memory_exhaustion" ∧
    classifyErrorType "database corruption" "" = "database_corruption" ∧
    classifyErrorType "stack overflow" "" = "stack_overflow" ∧
    classifyErrorType "system crash" "" = "system_crash" ∧
    classifyErrorType "[FF]" "" = "unknown_fatal_error" := by
  refine ⟨?_, ?_, ?_, rfl, rfl, rfl, rfl, rfl⟩
  · intro content src sig hsig
    simp only [scanContentFF, List.mem_flatten, List.mem_map] at hsig
    obtain ⟨inner, ⟨p, hp, rfl⟩, hsig2⟩ := hsig
    rw [List.mem_map] at hsig2
    obtain ⟨jm, hjm, rfl⟩ := hsig2
    rfl
  · intro em ctx
    simp only [classifyErrorType]
    repeat' split
    all_goals simp
  · intro em ctx
    simp only [classifyErrorType]
    split
    · simp
    · split
      · simp
      · split
        · simp
        · split
          · simp
          · split
            · rename_i h2 _ _ h5
              exfalso
              simp only [Bool.or_eq_true] at h2
              exact h2 (Or.inr h5)
            · simp

/-- Witness for C7 as amended, at a concrete scan. -/
theorem C7_amended_scanner_error_types_witness :
    (∃ sig, sig ∈ scanContentFF "fatal error: db" "log" ∧
      sig.errorType = some (classifyErrorType sig.rawSignal "fatal error: db")) ∧
    classifyErrorType "memory exhausted" "" ∈
      ["memory_exhaustion", "database_corruption", "stack_overflow",
       "system_crash", "data_corruption", "unknown_fatal_error"] := by
  refine ⟨?_, C7_amended_scanner_error_types.2.1 "memory exhausted" ""⟩
  have hne : scanContentFF "fatal error: db" "log" ≠ [] := by decide
  obtain ⟨sig, hsig⟩ := List.exists_mem_of_ne_nil _ hne
  exact ⟨sig, hsig, C7_amended_scanner_error_types.1 "fatal error: db" "log" sig hsig⟩

/-- Bounds of the `min(100, base + increments)` scoring shape. -/
theorem min100_bounds (x : ℚ) (hx : 0 ≤ x) : 0 ≤ min 100 x ∧ min 100 x ≤ 100 :=
  ⟨le_min (by norm_num) hx, min_le_left _ _⟩

/-- Python `int` truncation keeps a value in [0, 100] in [0, 100]. -/
theorem pyInt_bounds (q : ℚ) (h0 : 0 ≤ q) (h100 : q ≤ 100) :
    0 ≤ pyInt q ∧ pyInt q ≤ 100 := by
  unfold pyInt
  rw [if_pos h0]
  refine ⟨Int.le_floor.mpr (by exact_mod_cast h0), ?_⟩
  have hle : (⌊q⌋ : ℚ) ≤ 100 := le_trans (Int.floor_le q) h100
  exact_mod_cast hle

theorem assessContentAccuracy_bounds (pd : PreviewData) :
    0 ≤ assessContentAccuracy pd ∧ assessContentAccuracy pd ≤ 100 := by
  unfold assessContentAccuracy
  exact min100_bounds _ (by split_ifs <;> norm_num)

theorem assessContentClarity_bounds (pd : PreviewData) :
    0 ≤ assessContentClarity pd ∧ assessContentClarity pd ≤ 100 := by
  unfold assessContentClarity
  exact min100_bounds _ (by split_ifs <;> norm_num)

theorem assessContentRelevance_bounds (pd : PreviewData) :
    0 ≤ assessContentRelevance pd ∧ assessContentRelevance pd ≤ 100 := by
  unfold assessContentRelevance
  exact min100_bounds _ (by split_ifs <;> norm_num)

theorem assessContentConsistency_bounds (pd : PreviewData) :
    0 ≤ assessContentConsistency pd ∧ assessContentConsistency pd ≤ 100 := by
  unfold assessContentConsistency
  exact min100_bounds _ (by split_ifs <;> norm_num)

theorem getTypeSpecificContent_known_length (pt : String)
    (hpt : pt ∈ ["implementation", "analysis", "design", "quality", "deployment"]) :
    (getTypeSpecificContent pt).length = 3 := by
  simp only [List.mem_cons, List.not_mem_nil, or_false] at hpt
  rcases hpt with rfl | rfl | rfl | rfl | rfl <;> rfl

theorem assessContentCompleteness_known (pd : PreviewData) (pt : String)
    (hpt : pt ∈ ["implementation", "analysis", "design", "quality", "deployment"]) :
    ∃ cc, assessContentCompleteness pd pt = some cc ∧ 0 ≤ cc ∧ cc ≤ 100 := by
  have hlen := getTypeSpecificContent_known_length pt hpt
  unfold assessContentCompleteness
  rw [if_neg (by omega)]
  refine ⟨_, rfl, ?_, min_le_left _ _⟩
  refine le_min (by norm_num) ?_
  have hscore : (0 : ℚ) ≤ 60 +
      ((contentSections.filter pd.get).length : ℚ) / (contentSections.length : ℚ) * 30 +
      (((getTypeSpecificContent pt).filter pd.get).length : ℚ) /
        ((getTypeSpecificContent pt).length : ℚ) * 10 := by
    have h1 : (0 : ℚ) ≤
        ((contentSections.filter pd.get).length : ℚ) / (contentSections.length : ℚ) * 30 :=
      mul_nonneg (div_nonneg (by positivity) (by positivity)) (by norm_num)
    have h2 : (0 : ℚ) ≤
        (((getTypeSpecificContent pt).filter pd.get).length : ℚ) /
          ((getTypeSpecificContent pt).length : ℚ) * 10 :=
      mul_nonneg (div_nonneg (by positivity) (by positivity)) (by norm_num)
    linarith
  unfold pyInt
  rw [if_pos hscore]
  exact_mod_cast Int.le_floor.mpr (by exact_mod_cast hscore)

/-- The mean of five values in [0, 100] lies in [0, 100]. -/
theorem mean5_bounds (a b c d e : ℚ)
    (ha : 0 ≤ a ∧ a ≤ 100) (hb : 0 ≤ b ∧ b ≤ 100) (hc : 0 ≤ c ∧ c ≤ 100)
    (hd : 0 ≤ d ∧ d ≤ 100) (he : 0 ≤ e ∧ e ≤ 100) :
    0 ≤ (a + b + c + d + e) / 5 ∧ (a + b + c + d + e) / 5 ≤ 100 := by
  constructor
  · have : (0 : ℚ) ≤ a + b + c + d + e := by linarith [ha.1, hb.1, hc.1, hd.1, he.1]
    positivity
  · rw [div_le_iff₀ (by norm_num)]
    linarith [ha.2, hb.2, hc.2, hd.2, he.2]

theorem assessActionabilityScore_bounds (guide instr : String) :
    0 ≤ assessActionabilityScore guide instr ∧
      assessActionabilityScore guide instr ≤ 100 := by
  unfold assessActionabilityScore
  refine min100_bounds _ ?_
  have hmin : (0 : ℚ) ≤ min 25 ((keywordCount
      (strLower (guide ++ " " ++ instr))
      ["click", "select", "choose", "decide", "approve", "reject",
       "review", "provide", "send", "complete", "submit"] : ℚ) * 5) :=
    le_min (by norm_num) (by positivity)
  split_ifs <;> linarith

theorem stakeholderScores_bounds (pd : PreviewData) :
    0 ≤ calculateStakeholderRelevanceScore pd ∧
      calculateStakeholderRelevanceScore pd ≤ 100 := by
  have h1 : 0 ≤ assessImpactDemonstration pd ∧ assessImpactDemonstration pd ≤ 100 := by
    unfold assessImpactDemonstration
    exact min100_bounds _ (by split_ifs <;> norm_num)
  have h2 : 0 ≤ assessBenefitCommunication pd ∧ assessBenefitCommunication pd ≤ 100 := by
    unfold assessBenefitCommunication
    exact min100_bounds _ (by split_ifs <;> norm_num)
  have h3 : 0 ≤ assessRiskPresentation pd ∧ assessRiskPresentation pd ≤ 100 := by
    unfold assessRiskPresentation
    exact min100_bounds _ (by split_ifs <;> norm_num)
  have h4 : 0 ≤ assessResourceClarity pd ∧ assessResourceClarity pd ≤ 100 := by
    unfold assessResourceClarity
    exact min100_bounds _ (by split_ifs <;> norm_num)
  have h5 : 0 ≤ assessStrategicAlignment pd ∧ assessStrategicAlignment pd ≤ 100 := by
    unfold assessStrategicAlignment
    exact min100_bounds _ (by split_ifs <;> norm_num)
  unfold calculateStakeholderRelevanceScore
  obtain ⟨hl, hr⟩ := mean5_bounds _ _ _ _ _ h1 h2 h3 h4 h5
  exact pyInt_bounds _ hl hr

/-- Counterexample to C4: with the analysis preview type and all five
generic components plus the four analysis extras present, the ap
completeness score is 9/8 of 100 = 112.5, above the documented 0-100
range — `completion_percentage` is the one score the inspector never
clamps. -/
theorem C4_cx_ap_completeness_unclamped :
    extractPreviewType "[ap] analysis preview ready" "" = "analysis" ∧
    calculateCompletenessScore pdOverfull "analysis" = 225 / 2 ∧
    ¬ calculateCompletenessScore pdOverfull "analysis" ≤ 100 := by
  have h1 : (componentsPresent pdOverfull "analysis").length = 9 := by decide
  have h2 : getRequiredComponents "analysis" ≠ [] := by decide
  have h3 : (getRequiredComponents "analysis").length = 8 := by decide
  have hval : calculateCompletenessScore pdOverfull "analysis" = 225 / 2 := by
    unfold calculateCompletenessScore completionPercentage
    rw [if_pos h2, h1, h3]
    norm_num
  refine ⟨by decide, hval, ?_⟩
  rw [hval]
  norm_num

/-- C4 as amended: for every preview package and every preview type that
the inspector can process to completion, the ap quality, actionability
and stakeholder-relevance aggregate scores all lie in [0, 100]; the
completeness aggregate equals the raw completion percentage, which is
nonnegative but not clamped to 100. -/
theorem C4_amended_ap_aggregate_scores (pd : PreviewData) (pt guide instr : String)
    (hpt : pt ∈ ["implementation", "analysis", "design", "quality", "deployment"]) :
    (∃ q, calculateQualityScore pd pt = some q ∧ 0 ≤ q ∧ q ≤ 100) ∧
    (0 ≤ calculateActionabilityScore guide instr pd ∧
      calculateActionabilityScore guide instr pd ≤ 100) ∧
    (0 ≤ calculateStakeholderRelevanceScore pd ∧
      calculateStakeholderRelevanceScore pd ≤ 100) ∧
    calculateCompletenessScore pd pt = completionPercentage pd pt ∧
    0 ≤ completionPercentage pd pt := by
  refine ⟨?_, ?_, stakeholderScores_bounds pd, rfl, ?_⟩
  · obtain ⟨cc, hcc, hcc0, hcc100⟩ := assessContentCompleteness_known pd pt hpt
    refine ⟨pyInt ((assessContentAccuracy pd + cc + assessContentClarity pd +
      assessContentRelevance pd + assessContentConsistency pd) / 5), ?_, ?_⟩
    · simp [calculateQualityScore, overallQualityScore, hcc]
    · obtain ⟨hl, hr⟩ := mean5_bounds _ _ _ _ _
        (assessContentAccuracy_bounds pd) ⟨hcc0, hcc100⟩
        (assessContentClarity_bounds pd) (assessContentRelevance_bounds pd)
        (assessContentConsistency_bounds pd)
      exact pyInt_bounds _ hl hr
  · unfold calculateActionabilityScore
    obtain ⟨hd0, hd100⟩ := assessActionabilityScore_bounds guide instr
    have hp0 : (0 : ℚ) ≤ 50 + (if pd.get "clear_next_steps" then (25 : ℚ) else 0) +
        (if pd.get "decision_points" then (25 : ℚ) else 0) := by
      split_ifs <;> norm_num
    have hp100 : 50 + (if pd.get "clear_next_steps" then (25 : ℚ) else 0) +
        (if pd.get "decision_points" then (25 : ℚ) else 0) ≤ 100 := by
      split_ifs <;> norm_num
    refine pyInt_bounds _ ?_ ?_
    · positivity
    · rw [div_le_iff₀ (by norm_num)]
      linarith
  · unfold completionPercentage
    dsimp only
    split_ifs
    · positivity
    · norm_num

/-- Witness for C4 as amended at concrete inputs. -/
theorem C4_amended_ap_aggregate_scores_witness :
    ("analysis" ∈ ["implementation", "analysis", "design", "quality", "deployment"]) ∧
    ((∃ q, calculateQualityScore pdOverfull "analysis" = some q ∧ 0 ≤ q ∧ q ≤ 100) ∧
     (0 ≤ calculateActionabilityScore "" "" pdOverfull ∧
       calculateActionabilityScore "" "" pdOverfull ≤ 100) ∧
     (0 ≤ calculateStakeholderRelevanceScore pdOverfull ∧
       calculateStakeholderRelevanceScore pdOverfull ≤ 100) ∧
     calculateCompletenessScore pdOverfull "analysis" =
       completionPercentage pdOverfull "analysis" ∧
     0 ≤ completionPercentage pdOverfull "analysis") :=
  ⟨by decide,
   C4_amended_ap_aggregate_scores pdOverfull "analysis" "" "" (by decide)⟩

/-- The missing-field loop over the classification only ever adds
missing-required-field messages. -/
theorem missingClassificationErrors_shape (c : PyVal) :
    ∀ (fields : List String) (acc : List String),
      (∀ f ∈ fields, f ∈ classificationRequired) →
      (∀ e ∈ acc, violationShape e) →
      ∀ r, (fields.foldlM (fun acc f => do
          let b ← pyIn f c
          pure (if b then acc
                else acc ++ ["Missing required field in classification: " ++ f])) acc)
        = Except.ok r →
      ∀ e ∈ r, violationShape e := by
  intro fields
  induction fields with
  | nil =>
      intro acc _ hacc r hr
      simp only [List.foldlM_nil] at hr
      cases hr
      exact hacc
  | cons f fs ih =>
      intro acc hf hacc r hr
      simp only [List.foldlM_cons] at hr
      cases hpy : pyIn f c with
      | error e => rw [hpy] at hr; exact absurd hr (by simp [Bind.bind, Except.bind])
      | ok b =>
          rw [hpy] at hr
          simp only [Bind.bind, Except.bind, pure, Except.pure] at hr
          refine ih _ (fun g hg => hf g (List.mem_cons_of_mem f hg)) ?_ r hr
          intro e he
          by_cases hb : b = true
          · rw [if_pos hb] at he
            exact hacc e he
          · rw [if_neg hb] at he
            rcases List.mem_append.mp he with h | h
            · exact hacc e h
            · simp only [List.mem_singleton] at h
              exact Or.inr (Or.inr (Or.inl ⟨f, hf f (List.mem_cons_self f fs), h⟩))

/-- The priority check yields at most its own range message. -/
theorem priorityRangeErrors_shape (c : PyVal) (r : List String)
    (hr : priorityRangeErrors c = Except.ok r) : ∀ e ∈ r, violationShape e := by
  unfold priorityRangeErrors at hr
  cases hpy : pyIn "priority" c with
  | error e => rw [hpy] at hr; exact absurd hr (by simp [Bind.bind, Except.bind])
  | ok b =>
      rw [hpy] at hr
      simp only [Bind.bind, Except.bind] at hr
      cases b with
      | false =>
          simp only [Bool.false_eq_true, if_false, pure, Except.pure] at hr
          cases hr
          intro e he
          simp at he
      | true =>
          simp only [if_true] at hr
          cases hsub : pySubscript "priority" c with
          | error e => rw [hsub] at hr; exact absurd hr (by simp [Bind.bind, Except.bind])
          | ok v =>
              rw [hsub] at hr
              simp only [Bind.bind, Except.bind, pure, Except.pure] at hr
              cases hr
              intro e he
              cases v <;> simp only at he
              case int n =>
                split at he
                · simp only [List.mem_singleton] at he
                  exact Or.inr (Or.inr (Or.inr (Or.inl he)))
                · simp at he
              all_goals
                simp only [List.mem_singleton] at he
                exact Or.inr (Or.inr (Or.inr (Or.inl he)))

/-- The confidence check yields at most its own range message. -/
theorem confidenceRangeErrors_shape (c : PyVal) (r : List String)
    (hr : confidenceRangeErrors c = Except.ok r) : ∀ e ∈ r, violationShape e := by
  unfold confidenceRangeErrors at hr
  cases hpy : pyIn "confidence" c with
  | error e => rw [hpy] at hr; exact absurd hr (by simp [Bind.bind, Except.bind])
  | ok b =>
      rw [hpy] at hr
      simp only [Bind.bind, Except.bind] at hr
      cases b with
      | false =>
          simp only [Bool.false_eq_true, if_false, pure, Except.pure] at hr
          cases hr
          intro e he
          simp at he
      | true =>
          simp only [if_true] at hr
          cases hsub : pySubscript "confidence" c with
          | error e => rw [hsub] at hr; exact absurd hr (by simp [Bind.bind, Except.bind])
          | ok v =>
              rw [hsub] at hr
              simp only [Bind.bind, Except.bind, pure, Except.pure] at hr
              cases hr
              intro e he
              cases v <;> simp only at he
              case int n =>
                split at he
                · simp only [List.mem_singleton] at he
                  exact Or.inr (Or.inr (Or.inr (Or.inr (Or.inl he))))
                · simp at he
              all_goals
                simp only [List.mem_singleton] at he
                exact Or.inr (Or.inr (Or.inr (Or.inr (Or.inl he))))

/-- Per-recommendation messages are missing-field, estimatedTime-range
or not-an-object messages. -/
theorem recommendationItemErrors_shape (i : Nat) (v : PyVal) :
    ∀ e ∈ recommendationItemErrors i v, violationShape e := by
  cases v with
  | dict kvs =>
      intro e he
      simp only [recommendationItemErrors] at he
      rcases List.mem_append.mp he with h | h
      · have hfold :
            ∀ (fields : List String) (acc : List String),
              (∀ f ∈ fields, f ∈ recommendationRequired) →
              (∀ g ∈ acc, violationShape g) →
              ∀ g ∈ fields.foldl (fun acc f => if (kvs.lookup f).isSome then acc
                else acc ++ ["Recommendation " ++ toString i ++
                  " missing required field: " ++ f]) acc, violationShape g := by
          intro fields
          induction fields with
          | nil => intro acc _ hacc g hg; exact hacc g hg
          | cons f fs ih =>
              intro acc hf hacc g hg
              simp only [List.foldl_cons] at hg
              refine ih _ (fun x hx => hf x (List.mem_cons_of_mem f hx)) ?_ g hg
              intro x hx
              split at hx
              · exact hacc x hx
              · rcases List.mem_append.mp hx with h2 | h2
                · exact hacc x h2
                · simp only [List.mem_singleton] at h2
                  refine Or.inr (Or.inr (Or.inr (Or.inr (Or.inr (Or.inr (Or.inr
                    (Or.inl ⟨i, f, hf f (List.mem_cons_self f fs), h2⟩)))))))
        exact hfold recommendationRequired [] (fun f hf => hf) (by simp) e h
      · rcases hlk : kvs.lookup "estimatedTime" with _ | w
        · rw [hlk] at h; simp at h
        · rw [hlk] at h
          cases w <;> simp only at h
          case int n =>
            split at h
            · simp only [List.mem_singleton] at h
              exact Or.inr (Or.inr (Or.inr (Or.inr (Or.inr (Or.inr (Or.inr
                (Or.inr ⟨i, h⟩)))))))
            · simp at h
          all_goals
            simp only [List.mem_singleton] at h
            exact Or.inr (Or.inr (Or.inr (Or.inr (Or.inr (Or.inr (Or.inr
              (Or.inr ⟨i, h⟩)))))))
  | int n =>
      intro e he
      simp only [recommendationItemErrors, List.mem_singleton] at he
      exact Or.inr (Or.inr (Or.inr (Or.inr (Or.inr (Or.inr (Or.inl ⟨i, he⟩))))))
  | str s =>
      intro e he
      simp only [recommendationItemErrors, List.mem_singleton] at he
      exact Or.inr (Or.inr (Or.inr (Or.inr (Or.inr (Or.inr (Or.inl ⟨i, he⟩))))))
  | list xs =>
      intro e he
      simp only [recommendationItemErrors, List.mem_singleton] at he
      exact Or.inr (Or.inr (Or.inr (Or.inr (Or.inr (Or.inr (Or.inl ⟨i, he⟩))))))

/-- The recommendations section only yields catalog messages. -/
theorem recommendationErrors_shape (v : PyVal) :
    ∀ e ∈ recommendationErrors v, violationShape e := by
  cases v with
  | list xs =>
      intro e he
      simp only [recommendationErrors, List.mem_flatten, List.mem_map] at he
      obtain ⟨l, ⟨p, hp, rfl⟩, hel⟩ := he
      exact recommendationItemErrors_shape p.1 p.2 e hel
  | int n => intro e he; simp only [recommendationErrors, List.mem_singleton] at he
             exact he ▸ Or.inr (Or.inr (Or.inr (Or.inr (Or.inr (Or.inl rfl)))))
  | str s => intro e he; simp only [recommendationErrors, List.mem_singleton] at he
             exact he ▸ Or.inr (Or.inr (Or.inr (Or.inr (Or.inr (Or.inl rfl)))))
  | dict kvs => intro e he; simp only [recommendationErrors, List.mem_singleton] at he
                exact he ▸ Or.inr (Or.inr (Or.inr (Or.inr (Or.inr (Or.inl rfl)))))

/-- Every violation the validator can emit is a presence or numeric-range
message for priority, confidence or estimatedTime. -/
theorem validateInspectorOutput_shape (data : List (String × PyVal))
    (res : List String) (hr : validateInspectorOutput data = Except.ok res) :
    ∀ e ∈ res, violationShape e := by
  unfold validateInspectorOutput at hr
  have hrec : ∀ e, e ∈ (match data.lookup "recommendations" with
      | none => ([] : List String)
      | some r => recommendationErrors r) → violationShape e := by
    intro e he
    cases hk : data.lookup "recommendations" with
    | none => rw [hk] at he; simp at he
    | some v => rw [hk] at he; exact recommendationErrors_shape v e he
  have hmiss : ∀ e, e ∈ (if (data.lookup "recommendations").isSome then ([] : List String)
      else ["Missing required field: recommendations"]) → violationShape e := by
    intro e he
    split at he
    · simp at he
    · simp only [List.mem_singleton] at he
      exact Or.inr (Or.inl he)
  cases hc : data.lookup "classification" with
  | none =>
      rw [hc] at hr
      simp only [Bind.bind, Except.bind, pure, Except.pure] at hr
      cases hr
      intro e he
      rcases List.mem_append.mp he with h | h
      · rcases List.mem_append.mp h with h2 | h2
        · rcases List.mem_append.mp h2 with h3 | h3
          · simp only [Option.isSome_none, Bool.false_eq_true, if_false,
              List.mem_singleton] at h3
            exact Or.inl h3
          · exact hmiss e h3
        · simp at h2
      · exact hrec e h
  | some c =>
      rw [hc] at hr
      simp only [Bind.bind, Except.bind] at hr
      cases hm : missingClassificationErrors c with
      | error e => rw [hm] at hr; exact absurd hr (by simp [Bind.bind, Except.bind])
      | ok m =>
          rw [hm] at hr
          cases hp : priorityRangeErrors c with
          | error e => rw [hp] at hr; exact absurd hr (by simp [Bind.bind, Except.bind])
          | ok pr =>
              rw [hp] at hr
              cases hcf : confidenceRangeErrors c with
              | error e => rw [hcf] at hr; exact absurd hr (by simp [Bind.bind, Except.bind])
              | ok cf =>
                  rw [hcf] at hr
                  simp only [Bind.bind, Except.bind, pure, Except.pure] at hr
                  cases hr
                  intro e he
                  rcases List.mem_append.mp he with h | h
                  · rcases List.mem_append.mp h with h2 | h2
                    · rcases List.mem_append.mp h2 with h3 | h3
                      · simp at h3
                      · exact hmiss e h3
                    · rcases List.mem_append.mp h2 with h3 | h3
                      · rcases List.mem_append.mp h3 with h4 | h4
                        · exact missingClassificationErrors_shape c
                            classificationRequired [] (fun f hf => hf) (by simp) m hm e h4
                        · exact priorityRangeErrors_shape c pr hp e h4
                      · exact confidenceRangeErrors_shape c cf hcf e h3
                  · exact hrec e h

/-- C6: the bundled PR-analysis example validates with no violations;
raising its confidence to 150 yields exactly one violation, which names
confidence; and every violation the validator can ever emit is a
required-field-presence message or a numeric range message for
priority, confidence or estimatedTime — no enum-membership or
string-length complaint exists for any other field. -/
theorem C6_pr_validator_output :
    validateInspectorOutput exampleOutput = Except.ok [] ∧
    validateInspectorOutput exampleOutputConfidence150 =
      Except.ok ["Confidence must be an integer between 0 and 100"] ∧
    strContains "Confidence must be an integer between 0 and 100" "Confidence" = true ∧
    (∀ data res, validateInspectorOutput data = Except.ok res →
       ∀ e ∈ res, violationShape e) := by
  exact ⟨rfl, rfl, by decide, validateInspectorOutput_shape⟩

/-- Witness for C6: the catalog property applied to the empty report. -/
theorem C6_pr_validator_output_witness :
    validateInspectorOutput [] =
      Except.ok ["Missing required field: classification",
                 "Missing required field: recommendations"] ∧
    violationShape "Missing required field: classification" :=
  ⟨rfl,
   C6_pr_validator_output.2.2.2 [] _ rfl
     "Missing required field: classification" (by simp)⟩

/-- A failed authentication (unknown user or wrong password) leaves the
stores untouched. -/
theorem authenticateUser_none (now : Nat) (username password : String)
    (st : UsersState) (h : (authenticateUser now username password st).1 = none) :
    (authenticateUser now username password st).2 = st := by
  revert h
  unfold authenticateUser
  cases hu : getUserByUsername st username with
  | none => intro _; rfl
  | some u0 =>
      dsimp only
      cases hl : st.usersByUsername.lookup username with
      | none => intro _; rfl
      | some uid =>
          dsimp only
          cases hd : st.usersDb.lookup uid with
          | none => intro _; rfl
          | some u =>
              dsimp only
              by_cases hv : verifyPassword password u.hashedPassword = true
              · rw [if_pos hv]
                intro h
                simp at h
              · rw [if_neg hv]
                intro _
                rfl

/-- A successful authentication updates exactly the stored record's
last_login and rewrites the mirror. -/
theorem authenticateUser_some (now : Nat) (username password : String)
    (st : UsersState) (usr : UserRec)
    (h : (authenticateUser now username password st).1 = some usr) :
    ∃ uid u, st.usersByUsername.lookup username = some uid ∧
      st.usersDb.lookup uid = some u ∧
      verifyPassword password u.hashedPassword = true ∧
      usr = { u with lastLogin := some now } ∧
      (authenticateUser now username password st).2 =
        { st with usersDb := setKey st.usersDb uid usr,
                  mirror := setKey st.usersDb uid usr } := by
  revert h
  unfold authenticateUser
  cases hu : getUserByUsername st username with
  | none => intro h; simp at h
  | some u0 =>
      dsimp only
      cases hl : st.usersByUsername.lookup username with
      | none => intro h; simp at h
      | some uid =>
          dsimp only
          cases hd : st.usersDb.lookup uid with
          | none => intro h; simp at h
          | some u =>
              dsimp only
              by_cases hv : verifyPassword password u.hashedPassword = true
              · rw [if_pos hv]
                intro h
                simp only [Option.some.injEq] at h
                exact ⟨uid, u, rfl, hd, hv, h.symm, by rw [← h]⟩
              · rw [if_neg hv]
                intro h
                simp at h

/-- The only error the email step can raise is the duplicate-email
conflict, and it raises it without touching its input state. -/
theorem updateUserEmailStep_error (userId : Nat) (upd : UserUpdate)
    (st : UsersState) (existing : UserRec) (err : Http)
    (h : (updateUserEmailStep userId upd st existing).1 = Except.error err) :
    err = ⟨400, "Email already exists"⟩ ∧
    (updateUserEmailStep userId upd st existing).2 = st := by
  revert h
  unfold updateUserEmailStep
  cases he : upd.email with
  | none => intro h; simp [updateUserFinish] at h
  | some newE =>
      dsimp only
      by_cases hcond : newE ≠ "" ∧ newE ≠ existing.email
      · rw [if_pos hcond]
        by_cases hdup : (st.usersByEmail.lookup newE).isSome = true
        · rw [if_pos hdup]
          intro h
          simp only [Except.error.injEq] at h
          exact ⟨h.symm, rfl⟩
        · rw [if_neg hdup]
          intro h
          simp [updateUserFinish] at h
      · rw [if_neg hcond]
        intro h
        simp [updateUserFinish] at h

/-- Counterexample to C8: a login rejected with 400 for an inactive
account has already mutated the store — `authenticate_user` sets
last_login and saves the JSON mirror before `login_user` checks
`is_active`. -/
theorem C8_cx_inactive_login_leaves_partial_state :
    (loginUser 100 "tok" "alice" "pw" stInactive).1 =
      Except.error ⟨400, "Inactive user"⟩ ∧
    (loginUser 100 "tok" "alice" "pw" stInactive).2 ≠ stInactive ∧
    (loginUser 100 "tok" "alice" "pw" stInactive).2.usersDb =
      [(1, { aliceRec with lastLogin := some 100 })] ∧
    (loginUser 100 "tok" "alice" "pw" stInactive).2.mirror =
      [(1, { aliceRec with lastLogin := some 100 })] := by
  refine ⟨by decide, by decide, by decide, by decide⟩

/-- C8 as amended: across the service scaffold, every request that ends
in a domain failure leaves the stores (users_db, the secondary indexes,
items_db, the token store) and both JSON mirrors exactly as they were,
with the two exceptions the code actually has.  Users router: register,
login and delete failures, and every update failure other than the
duplicate-email conflict, are state-preserving, as is a duplicate-email
rejection with no username change; but a 400 inactive-account login
commits a last_login update and mirror save first (the 401 login
failures commit nothing), and a duplicate-email rejection that followed
a username change keeps that username-index change (though it never
touches the records, the email index, the mirror or the token store).
Items router: the only domain failure is the 404, raised by get, update
and delete before any mutation, so items_db and the items mirror are
untouched (get reads only; create has no failure path at all). -/
theorem C8_amended_failure_atomicity :
    (∀ now email username password fullName st err,
       (registerUser now email username password fullName st).1 = Except.error err →
       (registerUser now email username password fullName st).2 = st) ∧
    (∀ now freshTok username password st err,
       (loginUser now freshTok username password st).1 = Except.error err →
       err.status = 401 →
       (loginUser now freshTok username password st).2 = st) ∧
    (∀ now freshTok username password st err,
       (loginUser now freshTok username password st).1 = Except.error err →
       err.status = 400 →
       ∃ uid u, st.usersByUsername.lookup username = some uid ∧
         st.usersDb.lookup uid = some u ∧ u.isActive = false ∧
         (loginUser now freshTok username password st).2 =
           { st with
               usersDb := setKey st.usersDb uid { u with lastLogin := some now },
               mirror := setKey st.usersDb uid { u with lastLogin := some now } }) ∧
    (∀ userId upd st err,
       (updateUser userId upd st).1 = Except.error err →
       err.detail ≠ "Email already exists" →
       (updateUser userId upd st).2 = st) ∧
    (∀ userId upd st err,
       (updateUser userId upd st).1 = Except.error err →
       upd.username = none →
       (updateUser userId upd st).2 = st) ∧
    (∀ userId upd st err,
       (updateUser userId upd st).1 = Except.error err →
       err.detail = "Email already exists" →
       ((updateUser userId upd st).2.usersDb = st.usersDb ∧
        (updateUser userId upd st).2.usersByEmail = st.usersByEmail ∧
        (updateUser userId upd st).2.mirror = st.mirror ∧
        (updateUser userId upd st).2.nextId = st.nextId ∧
        (updateUser userId upd st).2.tokensDb = st.tokensDb)) ∧
    (∀ userId st err,
       (deleteUser userId st).1 = Except.error err →
       (deleteUser userId st).2 = st) ∧
    (∀ itemId st err, getItem itemId st = Except.error err →
       err = ⟨404, "Item not found"⟩) ∧
    (∀ now c st, ∃ r, (createItem now c st).1 = Except.ok r) ∧
    (∀ now itemId upd st err,
       (updateItem now itemId upd st).1 = Except.error err →
       (updateItem now itemId upd st).2 = st) ∧
    (∀ itemId st err,
       (deleteItem itemId st).1 = Except.error err →
       (deleteItem itemId st).2 = st) := by
  refine ⟨?_, ?_, ?_, ?_, ?_, ?_, ?_, ?_, ?_, ?_, ?_⟩
  · intro now email username password fullName st err h
    revert h
    unfold registerUser
    split
    · intro _; rfl
    · split
      · intro _; rfl
      · intro h; simp at h
  · intro now freshTok username password st err h h401
    revert h
    unfold loginUser
    cases haut : authenticateUser now username password st with
    | mk r st1 =>
        cases r with
        | none =>
            dsimp only
            intro _
            have hnone := authenticateUser_none now username password st (by rw [haut])
            rw [haut] at hnone
            exact hnone
        | some usr =>
            dsimp only
            by_cases hact : ¬ usr.isActive = true
            · rw [if_pos hact]
              intro h
              simp only [Except.error.injEq] at h
              rw [← h] at h401
              simp at h401
            · rw [if_neg hact]
              intro h
              simp [createAccessToken] at h
  · intro now freshTok username password st err h h400
    revert h
    unfold loginUser
    cases haut : authenticateUser now username password st with
    | mk r st1 =>
        cases r with
        | none =>
            dsimp only
            intro h
            simp only [Except.error.injEq] at h
            rw [← h] at h400
            simp at h400
        | some usr =>
            dsimp only
            by_cases hact : ¬ usr.isActive = true
            · rw [if_pos hact]
              intro _
              obtain ⟨uid, u, hl, hd, hv, husr, hst⟩ :=
                authenticateUser_some now username password st usr (by rw [haut])
              rw [haut] at hst
              refine ⟨uid, u, hl, hd, ?_, ?_⟩
              · simp only [Bool.not_eq_true] at hact
                have hiso : usr.isActive = u.isActive := by rw [husr]
                rw [← hiso]
                exact hact
              · dsimp only at hst
                rw [hst, husr]
            · rw [if_neg hact]
              intro h
              simp [createAccessToken] at h
  · intro userId upd st err h hdet
    revert h
    unfold updateUser
    cases hd : st.usersDb.lookup userId with
    | none => intro _; rfl
    | some existing =>
        dsimp only
        cases hu : upd.username with
        | none =>
            dsimp only
            intro h
            obtain ⟨herr, _⟩ := updateUserEmailStep_error userId upd st existing err h
            exact absurd (by rw [herr]) hdet
        | some newU =>
            dsimp only
            by_cases hcond : newU ≠ "" ∧ newU ≠ existing.username
            · rw [if_pos hcond]
              by_cases hdup : (st.usersByUsername.lookup newU).isSome = true
              · rw [if_pos hdup]
                intro _; rfl
              · rw [if_neg hdup]
                intro h
                obtain ⟨herr, _⟩ := updateUserEmailStep_error userId upd _ existing err h
                exact absurd (by rw [herr]) hdet
            · rw [if_neg hcond]
              intro h
              obtain ⟨herr, _⟩ := updateUserEmailStep_error userId upd st existing err h
              exact absurd (by rw [herr]) hdet
  · intro userId upd st err h hu
    revert h
    unfold updateUser
    cases hd : st.usersDb.lookup userId with
    | none => intro _; rfl
    | some existing =>
        dsimp only
        rw [hu]
        dsimp only
        intro h
        exact (updateUserEmailStep_error userId upd st existing err h).2
  · intro userId upd st err h hdet
    revert h
    unfold updateUser
    cases hd : st.usersDb.lookup userId with
    | none =>
        dsimp only
        intro h
        simp only [Except.error.injEq] at h
        rw [← h] at hdet
        simp at hdet
    | some existing =>
        dsimp only
        cases hu : upd.username with
        | none =>
            dsimp only
            intro h
            rw [(updateUserEmailStep_error userId upd st existing err h).2]
            exact ⟨rfl, rfl, rfl, rfl, rfl⟩
        | some newU =>
            dsimp only
            by_cases hcond : newU ≠ "" ∧ newU ≠ existing.username
            · rw [if_pos hcond]
              by_cases hdup : (st.usersByUsername.lookup newU).isSome = true
              · rw [if_pos hdup]
                intro h
                simp only [Except.error.injEq] at h
                rw [← h] at hdet
                simp at hdet
              · rw [if_neg hdup]
                intro h
                rw [(updateUserEmailStep_error userId upd _ existing err h).2]
                exact ⟨rfl, rfl, rfl, rfl, rfl⟩
            · rw [if_neg hcond]
              intro h
              rw [(updateUserEmailStep_error userId upd st existing err h).2]
              exact ⟨rfl, rfl, rfl, rfl, rfl⟩
  · intro userId st err h
    revert h
    unfold deleteUser
    cases hd : st.usersDb.lookup userId with
    | none => intro _; rfl
    | some u =>
        dsimp only
        intro h
        simp at h
  · intro itemId st err h
    revert h
    unfold getItem
    cases hd : st.itemsDb.lookup itemId with
    | none =>
        intro h
        simp only [Except.error.injEq] at h
        exact h.symm
    | some it =>
        dsimp only
        intro h
        simp at h
  · intro now c st
    exact ⟨_, rfl⟩
  · intro now itemId upd st err h
    revert h
    unfold updateItem
    cases hd : st.itemsDb.lookup itemId with
    | none => intro _; rfl
    | some existing =>
        dsimp only
        intro h
        simp at h
  · intro itemId st err h
    revert h
    unfold deleteItem
    cases hd : st.itemsDb.lookup itemId with
    | none => intro _; rfl
    | some it =>
        dsimp only
        intro h
        simp at h

/-- Witness for C8 as amended at concrete requests against the one-user
and one-item stores. -/
theorem C8_amended_failure_atomicity_witness :
    ((registerUser 7 "bob@example.com" "alice" "pw2" none stInactive).1 =
       Except.error ⟨400, "Username already registered"⟩ ∧
     (registerUser 7 "bob@example.com" "alice" "pw2" none stInactive).2 = stInactive) ∧
    ((loginUser 7 "tok" "alice" "wrong" stInactive).1 =
       Except.error ⟨401, "Incorrect username or password"⟩ ∧
     (Http.mk 401 "Incorrect username or password").status = 401 ∧
     (loginUser 7 "tok" "alice" "wrong" stInactive).2 = stInactive) ∧
    ((deleteUser 9 stInactive).1 = Except.error ⟨404, "User not found"⟩ ∧
     (deleteUser 9 stInactive).2 = stInactive) ∧
    ((updateItem 3 9 ⟨none, none, none, none⟩ stOneItem).1 =
       Except.error ⟨404, "Item not found"⟩ ∧
     (updateItem 3 9 ⟨none, none, none, none⟩ stOneItem).2 = stOneItem) ∧
    ((deleteItem 9 stOneItem).1 = Except.error ⟨404, "Item not found"⟩ ∧
     (deleteItem 9 stOneItem).2 = stOneItem) :=
  ⟨⟨by decide,
    C8_amended_failure_atomicity.1 7 "bob@example.com" "alice" "pw2" none stInactive
      ⟨400, "Username already registered"⟩ (by decide)⟩,
   ⟨by decide, rfl,
    C8_amended_failure_atomicity.2.1 7 "tok" "alice" "wrong" stInactive
      ⟨401, "Incorrect username or password"⟩ (by decide) rfl⟩,
   ⟨by decide,
    C8_amended_failure_atomicity.2.2.2.2.2.2.1 9 stInactive
      ⟨404, "User not found"⟩ (by decide)⟩,
   ⟨by decide,
    C8_amended_failure_atomicity.2.2.2.2.2.2.2.2.2.1 3 9 ⟨none, none, none, none⟩
      stOneItem ⟨404, "Item not found"⟩ (by decide)⟩,
   ⟨by decide,
    C8_amended_failure_atomicity.2.2.2.2.2.2.2.2.2.2 9 stOneItem
      ⟨404, "Item not found"⟩ (by decide)⟩⟩

/-- C9: the protected endpoint returns 401 exactly when no bearer token
is presented; any presented token string — never-minted and expired ones
included — yields the 200 body built from the token's first ten
characters, and the token store (`verify_token`) plays no part in the
decision. -/
theorem C9_protected_route_ignores_token_store :
    (∀ credentials, (∃ e, protectedRoute credentials = Except.error e) ↔
       credentials = none) ∧
    protectedRoute none = Except.error ⟨401, "Authentication required"⟩ ∧
    (∀ tok, protectedRoute (some tok) =
       Except.ok ⟨"Access granted", ⟨tok.take 10⟩, "This is protected content"⟩) ∧
    (∀ tok tokens now, (verifyToken now tok tokens).1 = none →
       protectedRoute (some tok) =
         Except.ok ⟨"Access granted", ⟨tok.take 10⟩, "This is protected content"⟩) := by
  refine ⟨?_, rfl, fun tok => rfl, fun tok tokens now _ => rfl⟩
  intro credentials
  constructor
  · rintro ⟨e, he⟩
    cases credentials with
    | none => rfl
    | some tok => simp [protectedRoute, getCurrentUser] at he
  · rintro rfl
    exact ⟨⟨401, "Authentication required"⟩, rfl⟩

/-- Witness for C9: a token that was never minted (empty store) still
gets the 200 body. -/
theorem C9_protected_route_ignores_token_store_witness :
    (verifyToken 0 "never-minted-token" []).1 = none ∧
    protectedRoute (some "never-minted-token") =
      Except.ok ⟨"Access granted", ⟨"never-mint"⟩, "This is protected content"⟩ :=
  ⟨by decide,
   C9_protected_route_ignores_token_store.2.2.2 "never-minted-token" [] 0 (by decide)⟩

set_option maxRecDepth 8192 in
/-- C10: lines 1-22 of the ap inspector file contain, outside any
string literal, a closing parenthesis with no matching opener — the
`POOR = "poor")` enum member — so the file is not syntactically valid
Python (the prefix through the ADEQUATE member is balanced, pinpointing
the fault to line 22). -/
theorem C10_ap_inspector_unmatched_paren :
    hasUnmatchedCloseParen apInspectorHead = true ∧
    strContains apInspectorHead "POOR = \"poor\")" = true ∧
    hasUnmatchedCloseParen
      "class QualityLevel(Enum):\n    EXCELLENT = \"excellent\"\n    GOOD = \"good\"\n    ADEQUATE = \"adequate\"\n" = false := by
  refine ⟨by decide, by decide, by decide⟩
